import Mathlib

/-!
# Asset-Intel: shallow embedding and verification of the run lifecycle engine

This file embeds, in Lean 4, the parts of the Asset-Intel code base
(`app/services/...`, `app/worker.py`, `app/core/...`) that the frozen claims
C1..C10 are about, and settles each claim against the embedding.

Modelling conventions:
* UUIDs are modelled as `Nat` identifiers; `datetime` values as `Nat` ticks
  supplied through explicit `now` parameters (the code calls
  `datetime.utcnow()` at each write site).
* The relational store is a record of lists of rows (`Db`); SQLAlchemy
  `select ... where` becomes `List.filter`, `update ... values` becomes
  `List.map` over the matching rows, `order_by X desc limit k` becomes an
  explicit insertion sort followed by `List.take`.
* Python strings are Lean `String`s; character-level operations
  (`str.replace` of single characters, `str.strip`, slicing) are carried out
  on `String.data` (`List Char`), which matches Python's code-point
  semantics for `len` and slicing.
* Network and OS effects (HTTP HEAD/GET, PIL, pytesseract, pdf2image,
  pypdf) are abstracted as explicit "external world" records passed to the
  handlers; a fallible external step is an `Except String` value whose
  `error` case models the Python exception being raised.
* Floating-point literals `0.97` / `1.03` in `related_assets_service.py`
  are modelled exactly as the rationals 97/100 and 103/100 (`int(x * 0.97)`
  on a nonnegative int is floor, i.e. Nat division); `confidence` floats on
  result rows are not modelled (no claim depends on them).
-/

set_option maxRecDepth 100000

namespace AssetIntel

/-! ## Data model (app/models/...) -/

/-- `app/models/intelligence_run.py` — table `intelligence_runs`. -/
structure IntelligenceRun where
  id : Nat
  org_id : Nat
  asset_id : Nat
  processor_name : String
  processor_version : String
  status : String
  error_message : Option String
  created_at : Nat
  completed_at : Option Nat
  estimated_cost_cents : Nat
  input_fingerprint_signature : Option String
  retry_count : Nat
  last_retry_at : Option Nat
  progress_current : Nat
  progress_total : Option Nat
  progress_message : Option String
  cancel_requested : Bool
  canceled_at : Option Nat
deriving DecidableEq, Repr

/-- `app/models/deadletter_event.py` — table `deadletter_events`. -/
structure DeadletterEvent where
  org_id : Nat
  run_id : Nat
  asset_id : Nat
  processor_name : String
  processor_version : String
  task_name : String
  job_try : Nat
  error_summary : Option String
  error_raw : Option String
  failed_at : Nat
  requeued_at : Option Nat
deriving DecidableEq, Repr

/-- `OrgUsage` row: fields as constructed by `app/services/usage_service.py`
(`org_id`, `period`, `intelligence_runs`, `estimated_cost_cents`); the model
file itself is not under `src/`, the fields are taken from its writers and
readers (`usage_service.py`, `quota_service.py`). -/
structure OrgUsage where
  org_id : Nat
  period : String
  intelligence_runs : Nat
  estimated_cost_cents : Nat
deriving DecidableEq, Repr

/-- `app/models/organization.py` — only the fields the claims touch. -/
structure Organization where
  id : Nat
  plan : String
deriving DecidableEq, Repr

/-- `app/models/asset_search_index.py` — table `asset_search_index`.
`content_length` is modelled from the spec: the spec's `SearchIndex` entity
lists `content_length`, and `related_assets_service.py` reads
`AssetSearchIndex.content_length`, but the model file under `src/` declares
no such column and the fingerprint upsert never writes it; we carry the
field (always left untouched by the embedded upsert) so that both facts can
be stated.  `ocr_tsv` is modelled as the text the tsvector was built from. -/
structure AssetSearchIndex where
  org_id : Nat
  asset_id : Nat
  sha256 : Option String
  etag : Option String
  content_type : Option String
  content_length : Option Nat
  last_modified : Option String
  ocr_text_preview : Option String
  ocr_tsv : Option String
  updated_at : Nat
deriving DecidableEq, Repr

/-- Payload of an `IntelligenceResult.data` JSON blob, per result type. -/
structure FingerprintData where
  content_type : Option String
  content_length : Option Nat
  etag : Option String
  last_modified : Option String
  sha256 : Option String
deriving DecidableEq, Repr

inductive ResultData where
  | fingerprint (data : FingerprintData)
  | image_metadata (width height : Nat) (format mode : String)
  | ocr_text (text : String) (truncated : Bool) (content_type : String)
      (language : String) (method : Option String) (text_length : Nat)
      (pdf_ocr_pages : Option Nat)
  | ocr_text_part (pages_completed pages_total : Nat) (text_so_far : String)
deriving DecidableEq, Repr

/-- `app/models/intelligence_result.py` row (the float `confidence` column is
not modelled; no claim depends on it). -/
structure IntelligenceResult where
  org_id : Nat
  asset_id : Nat
  run_id : Nat
  type : String
  data : ResultData
deriving DecidableEq, Repr

/-- `app/models/asset.py` — only the field the handlers read. -/
structure Asset where
  id : Nat
  source_uri : String
deriving DecidableEq, Repr

/-- The relational store. -/
structure Db where
  runs : List IntelligenceRun
  results : List IntelligenceResult
  search_index : List AssetSearchIndex
  deadletter_events : List DeadletterEvent
  org_usage : List OrgUsage
  organizations : List Organization
  assets : List Asset
deriving DecidableEq, Repr

/-- `app/services/cancel_run_service.py` line 12. -/
def TERMINAL_STATUSES : List String := ["completed", "failed", "canceled"]

/-- `update(IntelligenceRun).where(IntelligenceRun.id == run_id).values(...)`. -/
def update_run (db : Db) (run_id : Nat) (f : IntelligenceRun → IntelligenceRun) : Db :=
  { db with runs := db.runs.map (fun r => if r.id = run_id then f r else r) }

/-- `select(T).where(p)` followed by `.scalar_one_or_none()`: first matching
row (rows the code treats as unique are asserted `Nodup` in the theorems). -/
def scalar_one_or_none {α : Type} (l : List α) (p : α → Bool) : Option α :=
  (l.filter p).head?

/-! ## Python string helpers

Python `str` values are Lean `String`s; the sanitiser works on
`String.data : List Char`, matching Python's code-point semantics for
`len`, slicing and single-character `replace`. -/

/-- Python whitespace test used by `str.strip()`. -/
def pyIsSpace (c : Char) : Bool := c.isWhitespace

/-- Python `str.strip()` on a list of code points. -/
def pyStripChars (l : List Char) : List Char :=
  ((l.dropWhile pyIsSpace).reverse.dropWhile pyIsSpace).reverse

/-- Python `str.strip()`. -/
def pyStrip (s : String) : String := String.mk (pyStripChars s.data)

/-- ASCII lower-casing of one code point (kernel-reducible, unlike
`Char.toLower`). -/
def pyLowerChar (c : Char) : Char :=
  if 'A' ≤ c ∧ c ≤ 'Z' then Char.ofNat (c.toNat + 32) else c

/-- Python `str.lower()`; every string it is applied to in the embedded
code is an ASCII processor name or content type. -/
def pyLower (s : String) : String := String.mk (s.data.map pyLowerChar)

/-- Python `s.split(";")[0]`: the prefix before the first semicolon. -/
def pySplitSemiFirst (s : String) : String :=
  String.mk (s.data.takeWhile (fun c => c ≠ ';'))

/-- Python `s.startswith(pre)`. -/
def pyStartsWith (s pre : String) : Bool := pre.data.isPrefixOf s.data

/-! ## `_safe_error_summary` (app/worker.py lines 16-22, duplicated verbatim
in app/services/deadletter_service.py lines 16-22) -/

/-- `_safe_error_summary(err, max_len=200)`:
`if not err: return None`; then
`s = str(err).replace("\n", " ").replace("\r", " ").strip()`;
`return s if len(s) <= max_len else s[:max_len] + "…"`. -/
def _safe_error_summary (err : Option String) (max_len : Nat := 200) : Option String :=
  match err with
  | none => none
  | some e =>
    if e = "" then none
    else
      let s := pyStripChars
        ((e.data.map (fun c => if c = '\n' then ' ' else c)).map
          (fun c => if c = '\r' then ' ' else c))
      if s.length ≤ max_len then some (String.mk s)
      else some (String.mk (s.take max_len ++ ['…']))

/-! ## Quotas and pricing (app/core/quotas.py, app/core/pricing.py) -/

structure PlanLimits where
  max_runs_per_month : Nat
  max_cost_cents_per_month : Nat
deriving DecidableEq, Repr

/-- `DEFAULT_QUOTAS` in app/core/quotas.py. -/
def DEFAULT_QUOTAS : PlanLimits := ⟨1000, 1000⟩

/-- `PLAN_QUOTAS` dict lookup (`PLAN_QUOTAS.get(plan)`). -/
def PLAN_QUOTAS (plan : String) : Option PlanLimits :=
  if plan = "free" then some ⟨1000, 1000⟩
  else if plan = "pro" then some ⟨50000, 50000⟩
  else if plan = "team" then some ⟨200000, 200000⟩
  else none

def DEFAULT_PLAN : String := "free"

/-- `PROCESSOR_PRICING` dict in app/core/pricing.py. -/
def PROCESSOR_PRICING (processor_name : String) : Option Nat :=
  if processor_name = "image-metadata" then some 1
  else if processor_name = "asset-fingerprint" then some 1
  else if processor_name = "ocr-text" then some 2
  else none

/-- `estimate_cost` in app/core/pricing.py. -/
def estimate_cost (processor_name : String) : Nat :=
  (PROCESSOR_PRICING processor_name).getD 0

/-- Outcome of `enforce_quota`: normal return or an `HTTPException(code)`. -/
inductive QuotaOutcome where
  | ok
  | http_error (code : Nat)
deriving DecidableEq, Repr

/-- `plan = org.plan or DEFAULT_PLAN` followed by
`limits = PLAN_QUOTAS.get(plan) or PLAN_QUOTAS[DEFAULT_PLAN]`
(quota_service.py lines 34-35). -/
def plan_limits (org : Organization) : PlanLimits :=
  let plan := if org.plan = "" then DEFAULT_PLAN else org.plan
  match PLAN_QUOTAS plan with
  | some l => l
  | none => (PLAN_QUOTAS DEFAULT_PLAN).getD DEFAULT_QUOTAS

/-- `enforce_quota` (app/services/quota_service.py lines 15-61).  The two
`select`s are modelled by passing the organization table and usage table and
performing the same filtered lookups. -/
def enforce_quota (orgs : List Organization) (usage_rows : List OrgUsage)
    (org_id : Nat) (period : String) : QuotaOutcome :=
  match scalar_one_or_none orgs (fun o => o.id = org_id) with
  | none => .http_error 401
  | some org =>
    let limits := plan_limits org
    match scalar_one_or_none usage_rows
        (fun u => u.org_id = org_id ∧ u.period = period) with
    | none => .ok
    | some usage =>
      if usage.intelligence_runs ≥ limits.max_runs_per_month then .http_error 429
      else if usage.estimated_cost_cents ≥ limits.max_cost_cents_per_month then
        .http_error 402
      else .ok

/-! ## Usage accounting (app/services/usage_service.py) -/

/-- `record_usage` (app/services/usage_service.py lines 13-42); the current
period is passed explicitly (the code computes it from the wall clock).
The `(org_id, period)` row is unique in the store, so the in-place ORM
increment is modelled as a map over the matching rows. -/
def record_usage (usage_rows : List OrgUsage) (org_id : Nat) (cost_cents : Nat)
    (period : String) : List OrgUsage :=
  match scalar_one_or_none usage_rows
      (fun u => u.org_id = org_id ∧ u.period = period) with
  | some _ =>
    usage_rows.map (fun u =>
      if u.org_id = org_id ∧ u.period = period then
        { u with intelligence_runs := u.intelligence_runs + 1,
                 estimated_cost_cents := u.estimated_cost_cents + cost_cents }
      else u)
  | none =>
    usage_rows ++ [{ org_id := org_id, period := period,
                     intelligence_runs := 1, estimated_cost_cents := cost_cents }]

/-! ## `order_by ... limit ...` machinery

SQL `order_by key desc` / `order_by key asc` are modelled as stable
insertion sorts on a `Nat`-valued key; ties keep store order (SQL leaves
tie order unspecified). -/

def insert_desc_by {α : Type} (key : α → Nat) (x : α) : List α → List α
  | [] => [x]
  | y :: ys => if key y < key x then x :: y :: ys else y :: insert_desc_by key x ys

def sort_desc_by {α : Type} (key : α → Nat) : List α → List α
  | [] => []
  | x :: xs => insert_desc_by key x (sort_desc_by key xs)

def insert_asc_by {α : Type} (key : α → Nat) (x : α) : List α → List α
  | [] => [x]
  | y :: ys => if key x < key y then x :: y :: ys else y :: insert_asc_by key x ys

def sort_asc_by {α : Type} (key : α → Nat) : List α → List α
  | [] => []
  | x :: xs => insert_asc_by key x (sort_asc_by key xs)

/-! ## Fingerprint signatures
(app/services/fingerprint_signature_service.py) -/

/-- `_signature_from_fingerprint_data` (lines 13-33).  Python truthiness of
the string fields (`if sha256:`) is `Option.getD "" ≠ ""`; `content_length`
is tested with `is not None` while `last_modified` is tested for truthiness. -/
def _signature_from_fingerprint_data (data : FingerprintData) : Option String :=
  if data.sha256.getD "" ≠ "" then some ("sha256:" ++ data.sha256.getD "")
  else if data.etag.getD "" ≠ "" then some ("etag:" ++ data.etag.getD "")
  else
    match data.content_length, data.last_modified with
    | some clen, some lm =>
      if lm ≠ "" then some ("lenlm:" ++ toString clen ++ ":" ++ lm) else none
    | _, _ => none

/-- The join `select(IntelligenceResult, IntelligenceRun).join(...)` in
`get_latest_fingerprint_signature`: every (result, run) pair with
`run.id = result.run_id`, the run completed and owned by (org, asset), and
the result of type `fingerprint`. -/
def _fingerprint_join (db : Db) (org_id asset_id : Nat) :
    List (IntelligenceResult × IntelligenceRun) :=
  (db.results.map (fun res =>
    if res.type = "fingerprint" then
      (db.runs.filter (fun r => r.id = res.run_id ∧ r.org_id = org_id ∧
        r.asset_id = asset_id ∧ r.status = "completed")).map (fun r => (res, r))
    else [])).flatten

/-- `get_latest_fingerprint_signature` (lines 36-67): newest completed
fingerprint result by `run.completed_at desc`, its data fed to
`_signature_from_fingerprint_data`.  A result row of type `fingerprint`
whose payload is not fingerprint data corresponds to the
`isinstance(data, dict)` guard returning `None`. -/
def get_latest_fingerprint_signature (db : Db) (org_id asset_id : Nat) :
    Option String :=
  match (sort_desc_by (fun p => p.2.completed_at.getD 0)
      (_fingerprint_join db org_id asset_id)).head? with
  | none => none
  | some (res, _run) =>
    match res.data with
    | .fingerprint fp => _signature_from_fingerprint_data fp
    | _ => none

/-! ## Processor registry (app/services/intelligence_processors/__init__.py)

Only `image-metadata` and `asset-fingerprint` are registered; `ocr-text`
has a handler module (`ocr.py`) but no registry entry. -/

structure RegistrySpec where
  name : String
  version : String
deriving DecidableEq, Repr

def PROCESSORS : List RegistrySpec :=
  [⟨"image-metadata", "1.0.0"⟩, ⟨"asset-fingerprint", "1.0.0"⟩]

/-- `PROCESSORS.get(name)` / `name in PROCESSORS`. -/
def PROCESSORS_get (name : String) : Option RegistrySpec :=
  (PROCESSORS.filter (fun s => s.name = name)).head?

/-! ## Admission (app/services/intelligence_service.py) -/

/-- `_should_create_new_run` (lines 19-41). -/
def _should_create_new_run (latest_status : String) (force retry : Bool) : Bool :=
  if force then true
  else if latest_status = "pending" ∨ latest_status = "running" ∨
      latest_status = "completed" then false
  else if latest_status = "failed" then retry
  else false

/-- Fresh primary key for a new run (`uuid4` collisions are not modelled). -/
def next_run_id (db : Db) : Nat := (db.runs.map (fun r => r.id)).foldr max 0 + 1

/-- What `enqueue_processor_run` does, seen from its caller: raise
`ValueError` (unknown processor), let a quota `HTTPException` escape, or
return an existing/new run. -/
inductive EnqueueOutcome where
  | value_error (processor_name : String)
  | http_error (code : Nat)
  | reused (run : IntelligenceRun)
  | created (run : IntelligenceRun)
deriving DecidableEq, Repr

/-- `enqueue_processor_run` (lines 44-119).  The background task kicked off
after commit is not part of admission and is modelled separately by
`run_processor_in_background`. -/
def enqueue_processor_run (db : Db) (org_id asset_id : Nat)
    (processor_name : String) (force retry : Bool) (now : Nat)
    (period : String) : Db × EnqueueOutcome :=
  match PROCESSORS_get processor_name with
  | none => (db, .value_error processor_name)
  | some spec =>
    match enforce_quota db.organizations db.org_usage org_id period with
    | .http_error code => (db, .http_error code)
    | .ok =>
      let current_sig :=
        if spec.name ≠ "asset-fingerprint" then
          get_latest_fingerprint_signature db org_id asset_id
        else none
      let latest := (sort_desc_by (fun r => r.created_at)
        (db.runs.filter (fun r => r.org_id = org_id ∧ r.asset_id = asset_id ∧
          r.processor_name = spec.name ∧
          r.processor_version = spec.version))).head?
      let create : Db × EnqueueOutcome :=
        let run : IntelligenceRun :=
          { id := next_run_id db, org_id := org_id, asset_id := asset_id,
            processor_name := spec.name, processor_version := spec.version,
            status := "pending", error_message := none, created_at := now,
            completed_at := none, estimated_cost_cents := 0,
            input_fingerprint_signature :=
              if spec.name ≠ "asset-fingerprint" then current_sig else none,
            retry_count := 0, last_retry_at := none, progress_current := 0,
            progress_total := none, progress_message := none,
            cancel_requested := false, canceled_at := none }
        ({ db with runs := db.runs ++ [run] }, .created run)
      match latest with
      | some l =>
        if ! _should_create_new_run l.status force retry then
          if current_sig = none then (db, .reused l)
          else if l.input_fingerprint_signature = current_sig then (db, .reused l)
          else create
        else create
      | none => create

/-- `n` consecutive `enqueue_processor_run` calls with the same arguments;
the wall clock strictly advances between calls. -/
def enqueue_iterate (org_id asset_id : Nat) (processor_name : String)
    (force retry : Bool) (period : String) : Nat → Db → Nat → Db
  | 0, db, _ => db
  | n + 1, db, now =>
    enqueue_iterate org_id asset_id processor_name force retry period n
      (enqueue_processor_run db org_id asset_id processor_name force retry
        now period).1 (now + 1)

/-! ## Cancellation (app/services/cancel_run_service.py) -/

/-- `normalize_processor_name` (lines 15-25). -/
def normalize_processor_name (name : String) : String :=
  let n := pyLower (pyStrip name)
  if n = "ocr" ∨ n = "ocr_text" ∨ n = "ocr-text" then "ocr-text"
  else if n = "fingerprint" ∨ n = "asset_fingerprint" ∨
      n = "asset-fingerprint" then "asset-fingerprint"
  else n

/-- `is_cancel_requested` (lines 191-204). -/
def is_cancel_requested (db : Db) (org_id run_id : Nat) : Bool :=
  match scalar_one_or_none db.runs
      (fun r => r.id = run_id ∧ r.org_id = org_id) with
  | some r => r.cancel_requested
  | none => false

/-- `mark_run_canceled` (lines 207-227). -/
def mark_run_canceled (db : Db) (org_id run_id : Nat) (message : Option String)
    (now : Nat) : Db :=
  { db with runs := db.runs.map (fun r =>
      if r.id = run_id ∧ r.org_id = org_id then
        { r with status := "canceled", canceled_at := some now,
                 completed_at := some now,
                 progress_message := some (message.getD "canceled") }
      else r) }

/-- `_cascade_cancel_asset_runs` (lines 59-107).  Note the select is capped
at fifty rows (`.limit(50)` on line 80). -/
def _cascade_cancel_asset_runs (db : Db) (org_id asset_id : Nat)
    (exclude_run_id : Option Nat) (processors : Option (List String)) : Db :=
  let q := db.runs.filter (fun r => r.org_id = org_id ∧ r.asset_id = asset_id ∧
    ¬ r.status ∈ TERMINAL_STATUSES)
  let q := match processors with
    | some ps => q.filter (fun r => r.processor_name ∈ ps)
    | none => q
  let selected := (sort_desc_by (fun r => r.created_at) q).take 50
  let canceled_ids := (selected.filter (fun r =>
    ¬ exclude_run_id = some r.id ∧ ¬ r.cancel_requested)).map (fun r => r.id)
  if canceled_ids.isEmpty then db
  else
    { db with runs := db.runs.map (fun r =>
        if r.org_id = org_id ∧ r.asset_id = asset_id ∧ r.id ∈ canceled_ids then
          { r with cancel_requested := true }
        else r) }

inductive CancelOutcome where
  | invalid_processor_name
  | no_active_run_found
  | ok (run_id : Nat) (already_requested : Bool)
deriving DecidableEq, Repr

/-- `request_cancel_latest_run_for_asset` (lines 110-188). -/
def request_cancel_latest_run_for_asset (db : Db) (org_id asset_id : Nat)
    (processor_name : String) (cascade : Bool) : Db × CancelOutcome :=
  let proc := normalize_processor_name processor_name
  if proc = "" then (db, .invalid_processor_name)
  else
    match (sort_desc_by (fun r => r.created_at)
        (db.runs.filter (fun r => r.org_id = org_id ∧ r.asset_id = asset_id ∧
          r.processor_name = proc ∧
          ¬ r.status ∈ TERMINAL_STATUSES))).head? with
    | none => (db, .no_active_run_found)
    | some run =>
      let already_requested := run.cancel_requested
      let db :=
        if ! already_requested then
          { db with runs := db.runs.map (fun r =>
              if r.id = run.id then { r with cancel_requested := true } else r) }
        else db
      let db :=
        if cascade ∧ proc = "asset-fingerprint" then
          _cascade_cancel_asset_runs db org_id asset_id (some run.id)
            (some ["ocr-text"])
        else db
      (db, .ok run.id already_requested)

/-! ## Search index upserts (app/services/search_index_service.py) -/

/-- `_preview` (lines 15-17): strip, keep up to `max_chars` code points,
else truncate and append an ellipsis character. -/
def _preview (text : String) (max_chars : Nat := 1000) : String :=
  let t := pyStrip text
  if t.length ≤ max_chars then t
  else String.mk (t.data.take max_chars ++ ['…'])

/-- `upsert_fingerprint_into_index` (lines 20-48).  The insert/on-conflict
statement names exactly `sha256`, `etag`, `content_type`, `last_modified`
and `updated_at`; `content_length` is neither inserted nor updated. -/
def upsert_fingerprint_into_index (db : Db) (org_id asset_id : Nat)
    (fingerprint_data : FingerprintData) (now : Nat) : Db :=
  if db.search_index.any (fun r => r.org_id = org_id ∧ r.asset_id = asset_id) then
    { db with search_index := db.search_index.map (fun r =>
        if r.org_id = org_id ∧ r.asset_id = asset_id then
          { r with sha256 := fingerprint_data.sha256,
                   etag := fingerprint_data.etag,
                   content_type := fingerprint_data.content_type,
                   last_modified := fingerprint_data.last_modified,
                   updated_at := now }
        else r) }
  else
    { db with search_index := db.search_index ++
        [{ org_id := org_id, asset_id := asset_id,
           sha256 := fingerprint_data.sha256, etag := fingerprint_data.etag,
           content_type := fingerprint_data.content_type,
           content_length := none,
           last_modified := fingerprint_data.last_modified,
           ocr_text_preview := none, ocr_tsv := none, updated_at := now }] }

/-- `upsert_ocr_into_index` (lines 51-79); `ocr_tsv` is modelled as the text
the `to_tsvector` call was built from. -/
def upsert_ocr_into_index (db : Db) (org_id asset_id : Nat) (ocr_text : String)
    (now : Nat) : Db :=
  let text := pyStrip ocr_text
  let preview := _preview text 1000
  if db.search_index.any (fun r => r.org_id = org_id ∧ r.asset_id = asset_id) then
    { db with search_index := db.search_index.map (fun r =>
        if r.org_id = org_id ∧ r.asset_id = asset_id then
          { r with ocr_text_preview := some preview, ocr_tsv := some text,
                   updated_at := now }
        else r) }
  else
    { db with search_index := db.search_index ++
        [{ org_id := org_id, asset_id := asset_id, sha256 := none,
           etag := none, content_type := none, content_length := none,
           last_modified := none, ocr_text_preview := some preview,
           ocr_tsv := some text, updated_at := now }] }

/-! ## Near-size bucket of `find_related_assets`
(app/services/related_assets_service.py lines 271-325) -/

/-- The claim's inclusion condition `|other_len - src_len| / src_len ≤ 0.03`
for known positive sizes, written in exact rational arithmetic.  Modelled
from the spec (the code realises it through the integer window below and
through `_near_size_score`, whose float score is not modelled). -/
def near_size_condition (src_len other_len : Nat) : Prop :=
  0 < src_len ∧ 0 < other_len ∧ 100 * Nat.dist other_len src_len ≤ 3 * src_len

/-- The near-duplicates `select` of `find_related_assets`: guarded by Python
truthiness of `src.content_type` / `src.content_length`, rows of the same
org and content type whose `content_length` is non-null and inside
`[int(src_len * 0.97), int(src_len * 1.03)]` (exact-rational model of the
float multiplications), excluding the source asset. -/
def near_size_filter (index : List AssetSearchIndex) (src : AssetSearchIndex) :
    List AssetSearchIndex :=
  if src.content_type.getD "" ≠ "" ∧ src.content_length.getD 0 ≠ 0 then
    let n := src.content_length.getD 0
    let low := 97 * n / 100
    let high := 103 * n / 100
    index.filter (fun r => r.org_id = src.org_id ∧
      r.content_type = src.content_type ∧ r.content_length.isSome ∧
      low ≤ r.content_length.getD 0 ∧ r.content_length.getD 0 ≤ high ∧
      r.asset_id ≠ src.asset_id)
  else []

/-- The `near_duplicates_size` bucket: the filtered rows ordered by
`abs(content_length - src_len)` and capped at `limit_per_bucket`.  Every
selected row is appended to the bucket (membership does not depend on the
float score). -/
def near_size_bucket (index : List AssetSearchIndex) (src : AssetSearchIndex)
    (limit_per_bucket : Nat) : List AssetSearchIndex :=
  (sort_asc_by (fun r => Nat.dist (r.content_length.getD 0)
    (src.content_length.getD 0)) (near_size_filter index src)).take
    limit_per_bucket

/-! ## Processor handlers

Handlers are `Db → ... → Db × Option String`: the final store state plus
`some e` when the Python function raises exception text `e` (SQLAlchemy
commits already performed before the raise are kept, matching session
semantics in the source).  External effects (HTTP, hashing, PIL,
pytesseract, pdf2image, pypdf) are records of outcomes passed in. -/

/-- Headers observed by the fingerprint HEAD request;
`content_length` is the `int(...)`-parsed header. -/
structure HeadResult where
  content_type : Option String
  content_length : Option Nat
  etag : Option String
  last_modified : Option String
deriving DecidableEq, Repr

/-- External world of `process_fingerprint_run`: the HEAD request and, when
needed, the GET-and-hash pass yielding a sha256 hex digest. -/
structure FingerprintExt where
  head : Except String HeadResult
  get_sha256 : Except String String
deriving Repr

/-- `process_fingerprint_run`
(app/services/intelligence_processors/fingerprint.py lines 18-106).
There is no cancellation check anywhere in this handler. -/
def process_fingerprint_run (db : Db) (run_id : Nat) (ext : FingerprintExt)
    (now : Nat) : Db × Option String :=
  match scalar_one_or_none db.runs (fun r => r.id = run_id) with
  | none => (db, some "NoResultFound")
  | some run =>
    let db := update_run db run_id (fun r =>
      { r with status := "running", error_message := none })
    match scalar_one_or_none db.assets (fun a => a.id = run.asset_id) with
    | none => (db, some "NoResultFound")
    | some _asset =>
      match ext.head with
      | .error e => (db, some e)
      | .ok h =>
        let sha_step : Except String (Option String) :=
          if h.etag.getD "" = "" then ext.get_sha256.map some else .ok none
        match sha_step with
        | .error e => (db, some e)
        | .ok sha256 =>
          let data : FingerprintData :=
            { content_type := h.content_type,
              content_length := h.content_length, etag := h.etag,
              last_modified := h.last_modified, sha256 := sha256 }
          let sig := _signature_from_fingerprint_data data
          let db := update_run db run_id (fun r =>
            { r with input_fingerprint_signature := sig })
          let db := { db with results := db.results ++
            [{ org_id := run.org_id, asset_id := run.asset_id,
               run_id := run.id, type := "fingerprint",
               data := .fingerprint data }] }
          let db := upsert_fingerprint_into_index db run.org_id run.asset_id
            data now
          let db := update_run db run_id (fun r =>
            { r with status := "completed", completed_at := some now })
          (db, none)

/-- What `PIL.Image.open` reports for the downloaded bytes. -/
structure ImageInfo where
  width : Nat
  height : Nat
  format : String
  mode : String
deriving DecidableEq, Repr

/-- External world of `process_image_metadata_run`: the GET request and the
PIL decode of its bytes. -/
structure ImageExt where
  get : Except String Unit
  image : Except String ImageInfo
deriving Repr

/-- `process_image_metadata_run`
(app/services/intelligence_processors/image_metadata.py lines 17-65).
There is no cancellation check anywhere in this handler. -/
def process_image_metadata_run (db : Db) (run_id : Nat) (ext : ImageExt)
    (now : Nat) : Db × Option String :=
  match scalar_one_or_none db.runs (fun r => r.id = run_id) with
  | none => (db, some "NoResultFound")
  | some run =>
    let db := update_run db run_id (fun r =>
      { r with status := "running", error_message := none })
    match scalar_one_or_none db.assets (fun a => a.id = run.asset_id) with
    | none => (db, some "NoResultFound")
    | some _asset =>
      match ext.get with
      | .error e => (db, some e)
      | .ok _ =>
        match ext.image with
        | .error e => (db, some e)
        | .ok img =>
          let db := { db with results := db.results ++
            [{ org_id := run.org_id, asset_id := run.asset_id,
               run_id := run.id, type := "image_metadata",
               data := .image_metadata img.width img.height img.format
                 img.mode }] }
          let db := update_run db run_id (fun r =>
            { r with status := "completed", completed_at := some now })
          (db, none)

/-! ## OCR handler (app/services/intelligence_processors/ocr.py) -/

def MAX_TEXT_CHARS : Nat := 100000
def MAX_PDF_OCR_PAGES : Nat := 3
def PDF_MIN_TEXT_THRESHOLD : Nat := 30

/-- `_truncate` (lines 25-28). -/
def _truncate (text : String) : String × Bool :=
  if text.length ≤ MAX_TEXT_CHARS then (text, false)
  else (String.mk (text.data.take MAX_TEXT_CHARS), true)

/-- `_set_progress` (lines 120-137). -/
def _set_progress (db : Db) (run_id : Nat) (current : Nat) (total : Option Nat)
    (message : Option String) : Db :=
  update_run db run_id (fun r =>
    { r with progress_current := current, progress_total := total,
             progress_message := message })

/-- `_upsert_partial_result` (lines 69-117); the single
`(run_id, "ocr_text_partial")` row is mutated in place via the ORM, modelled
as a map over the matching rows. -/
def _upsert_partial_result (db : Db) (run : IntelligenceRun)
    (pages_completed pages_total : Nat) (text_so_far : String) (now : Nat) : Db :=
  let partial_text := (_truncate text_so_far).1
  let payload := ResultData.ocr_text_part pages_completed pages_total
    partial_text
  let db :=
    match scalar_one_or_none db.results (fun res =>
        res.run_id = run.id ∧ res.type = "ocr_text_partial") with
    | some _ =>
      { db with results := db.results.map (fun res =>
          if res.run_id = run.id ∧ res.type = "ocr_text_partial" then
            { res with data := payload }
          else res) }
    | none =>
      { db with results := db.results ++
          [{ org_id := run.org_id, asset_id := run.asset_id, run_id := run.id,
             type := "ocr_text_partial", data := payload }] }
  upsert_ocr_into_index db run.org_id run.asset_id partial_text now

/-- External world of `process_ocr_run`: the GET request, the response
headers and byte sniffs, the availability of the optional dependencies, and
the text the external tools produce. -/
structure OcrExt where
  get : Except String Unit
  content_type_header : Option String
  body_text : String
  looks_like_image : Bool
  looks_like_pdf : Bool
  pypdf_ok : Bool
  pdf_embedded_text : String
  pytesseract_ok : Bool
  pil_ok : Bool
  pdf2image_ok : Bool
  rasterize_ok : Bool
  pdf_page_texts : List (Except String String)
  image_to_text : Except String String
deriving Repr

/-- Outcome of the per-page OCR loop: a cooperative-cancel return, an
uncaught exception, or the collected page texts. -/
inductive OcrLoopOut where
  | canceled
  | raised (e : String)
  | done (texts : List String)
deriving DecidableEq, Repr

/-- The `for page_i, total, img in _ocr_images_from_pdf_iter(...)` loop body
(ocr.py lines 238-271, duplicated at lines 311-337). -/
def _ocr_pdf_loop (run : IntelligenceRun) (total : Nat) (now : Nat) :
    Db → List (Except String String) → Nat → List String → Db × OcrLoopOut
  | db, [], _page_i, texts => (db, .done texts)
  | db, page :: rest, page_i, texts =>
    if is_cancel_requested db run.org_id run.id then
      (mark_run_canceled db run.org_id run.id
        (some ("canceled during pdf ocr (page " ++ toString (page_i - 1) ++
          "/" ++ toString total ++ ")")) now, .canceled)
    else
      let db := _set_progress db run.id (page_i - 1) (some total)
        (some ("ocr page " ++ toString page_i ++ "/" ++ toString total))
      match page with
      | .error e => (db, .raised e)
      | .ok page_text =>
        let t := pyStrip page_text
        let texts :=
          if t ≠ "" then
            texts ++ ["[page " ++ toString page_i ++ "]\n" ++ t]
          else texts
        let db := _upsert_partial_result db run page_i total
          (pyStrip (String.intercalate "\n\n" texts)) now
        _ocr_pdf_loop run total now db rest (page_i + 1) texts

/-- Intermediate outcome of the content-type dispatch inside
`process_ocr_run`. -/
inductive OcrStage where
  | canceled (db : Db)
  | raised (db : Db) (e : String)
  | extracted (db : Db) (text : String) (truncated : Bool)
      (method : Option String)

/-- The scanned-PDF OCR block (ocr.py lines 227-282 without the initial
progress message, shared verbatim with lines 301-342): pytesseract import,
lazy pdf2image import and rasterisation (both raise on first loop entry),
then the per-page loop and the closing progress write. -/
def _scanned_pdf_ocr (db : Db) (run : IntelligenceRun) (ext : OcrExt)
    (now : Nat) : OcrStage :=
  if ¬ ext.pytesseract_ok then
    .raised db "OCR requires pytesseract and system tesseract binary installed."
  else if ¬ ext.pdf2image_ok then
    .raised db "Scanned-PDF OCR requires pdf2image plus system Poppler."
  else if ¬ ext.rasterize_ok then
    .raised db "Failed to rasterize PDF."
  else
    let pages := ext.pdf_page_texts
    let total := pages.length
    let total_pages : Option Nat := if pages.isEmpty then none else some total
    match _ocr_pdf_loop run total now db pages 1 [] with
    | (db, .canceled) => .canceled db
    | (db, .raised e) => .raised db e
    | (db, .done texts) =>
      let extracted := pyStrip (String.intercalate "\n\n" texts)
      let (extracted, truncated) := _truncate extracted
      let db := _set_progress db run.id (total_pages.getD 0) total_pages
        (some "pdf ocr completed")
      .extracted db extracted truncated (some "pdf_image_ocr")

/-- `process_ocr_run` (ocr.py lines 162-409).  The pre-start cancellation
check (lines 166-168) is the first thing the handler does. -/
def process_ocr_run (db : Db) (run_id : Nat) (ext : OcrExt)
    (lang : String := "eng") (now : Nat := 0) : Db × Option String :=
  match scalar_one_or_none db.runs (fun r => r.id = run_id) with
  | none => (db, some "NoResultFound")
  | some run =>
    if is_cancel_requested db run.org_id run.id then
      (mark_run_canceled db run.org_id run.id (some "canceled before start")
        now, none)
    else
      let db := update_run db run_id (fun r =>
        { r with status := "running", error_message := none,
                 progress_current := 0, progress_total := none,
                 progress_message := some "starting" })
      match scalar_one_or_none db.assets (fun a => a.id = run.asset_id) with
      | none => (db, some "NoResultFound")
      | some _asset =>
        match ext.get with
        | .error e => (db, some e)
        | .ok _ =>
          let content_type :=
            pyLower (pySplitSemiFirst (ext.content_type_header.getD ""))
          if is_cancel_requested db run.org_id run.id then
            (mark_run_canceled db run.org_id run.id
              (some "canceled after download") now, none)
          else
            let stage : OcrStage :=
              if pyStartsWith content_type "text/" then
                let db := _set_progress db run_id 1 (some 1)
                  (some "downloaded text")
                let (extracted, truncated) := _truncate ext.body_text
                let db := _set_progress db run_id 1 (some 1)
                  (some "text extracted")
                .extracted db extracted truncated (some "http_text")
              else if content_type = "application/pdf" ∨ ext.looks_like_pdf then
                let db := _set_progress db run_id 0 none
                  (some "extracting embedded pdf text")
                if ¬ ext.pypdf_ok then
                  .raised db "PDF text extraction requires the pypdf package."
                else
                  let pdf_text := ext.pdf_embedded_text
                  if PDF_MIN_TEXT_THRESHOLD ≤ (pyStrip pdf_text).length then
                    let (extracted, truncated) := _truncate pdf_text
                    let db := _set_progress db run_id 1 (some 1)
                      (some "pdf embedded text extracted")
                    .extracted db extracted truncated (some "pdf_text")
                  else
                    let db := _set_progress db run_id 0 none
                      (some "pdf looks scanned; starting ocr")
                    _scanned_pdf_ocr db run ext now
              else if pyStartsWith content_type "image/" ∨
                  content_type = "application/octet-stream" then
                let db := _set_progress db run_id 0 (some 1)
                  (some "preparing image ocr")
                if is_cancel_requested db run.org_id run.id then
                  .canceled (mark_run_canceled db run.org_id run.id
                    (some "canceled before image ocr") now)
                else if ¬ ext.looks_like_image then
                  if ext.looks_like_pdf then
                    if ¬ ext.pypdf_ok then
                      .raised db
                        "PDF text extraction requires the pypdf package."
                    else
                      let pdf_text := ext.pdf_embedded_text
                      if PDF_MIN_TEXT_THRESHOLD ≤ (pyStrip pdf_text).length then
                        let (extracted, truncated) := _truncate pdf_text
                        let db := _set_progress db run_id 1 (some 1)
                          (some "pdf embedded text extracted")
                        .extracted db extracted truncated (some "pdf_text")
                      else
                        _scanned_pdf_ocr db run ext now
                  else
                    .raised db ("OCR processor could not identify image/PDF content (content-type=" ++ content_type ++ ")")
                else
                  if ¬ ext.pil_ok ∨ ¬ ext.pytesseract_ok then
                    .raised db "OCR requires Pillow + pytesseract and system tesseract binary installed."
                  else
                    match ext.image_to_text with
                    | .error e => .raised db e
                    | .ok t =>
                      let extracted := pyStrip t
                      let (extracted, truncated) := _truncate extracted
                      let db := _set_progress db run_id 1 (some 1)
                        (some "image ocr completed")
                      .extracted db extracted truncated (some "tesseract_ocr")
              else
                .raised db ("OCR processor does not support content-type " ++
                  content_type)
            match stage with
            | .canceled db => (db, none)
            | .raised db e => (db, some e)
            | .extracted db extracted truncated method =>
              if is_cancel_requested db run.org_id run.id then
                (mark_run_canceled db run.org_id run.id
                  (some "canceled before finalize") now, none)
              else
                let data := ResultData.ocr_text extracted truncated
                  content_type lang method extracted.length
                  (if method = some "pdf_image_ocr" then some MAX_PDF_OCR_PAGES
                   else none)
                let db := { db with results := db.results ++
                  [{ org_id := run.org_id, asset_id := run.asset_id,
                     run_id := run.id, type := "ocr_text", data := data }] }
                let db := upsert_ocr_into_index db run.org_id run.asset_id
                  extracted now
                let db := update_run db run_id (fun r =>
                  { r with status := "completed", completed_at := some now,
                           progress_message := some "completed" })
                (db, none)

/-! ## Dispatcher (app/services/intelligence_dispatcher.py) and worker
(app/worker.py) -/

/-- External worlds for the two registered handlers. -/
structure DispatchExt where
  fp : FingerprintExt
  im : ImageExt
deriving Repr

/-- `spec.handler(db, run_id)` for the registry entries (`__init__.py`):
`image-metadata` dispatches to `process_image_metadata_run`, the only other
registered name (`asset-fingerprint`) to `process_fingerprint_run`. -/
def registry_handler (name : String) (ext : DispatchExt) (db : Db)
    (run_id : Nat) (now : Nat) : Db × Option String :=
  if name = "image-metadata" then
    process_image_metadata_run db run_id ext.im now
  else process_fingerprint_run db run_id ext.fp now

/-- `dispatch_run` (lines 14-58): silent return when the run is absent or
terminal, `failed` terminal write for an unknown processor, handler
dispatch through the registry, and the catch-all that marks the run
`failed` with `completed_at` before re-raising. -/
def dispatch_run (db : Db) (run_id : Nat) (ext : DispatchExt) (now : Nat) :
    Db × Option String :=
  match scalar_one_or_none db.runs (fun r => r.id = run_id) with
  | none => (db, none)
  | some run =>
    if run.status = "completed" ∨ run.status = "failed" ∨
        run.status = "canceled" then (db, none)
    else
      match PROCESSORS_get run.processor_name with
      | none =>
        (update_run db run_id (fun r =>
          { r with status := "failed",
                   error_message := some ("Unknown processor_name: " ++
                     run.processor_name),
                   completed_at := some now }), none)
      | some spec =>
        match registry_handler spec.name ext db run_id now with
        | (db, none) => (db, none)
        | (db, some e) =>
          (update_run db run_id (fun r =>
            { r with status := "failed", error_message := some e,
                     completed_at := some now }), some e)

/-- Settings defaults (app/core/config.py). -/
def ARQ_MAX_TRIES : Nat := 3

def DEADLETTER_MAX_ITEMS : Nat := 200

/-- `_push_deadletter_redis` (worker.py lines 25-34): `LPUSH` then `LTRIM`
to the first `DEADLETTER_MAX_ITEMS` entries; no-op without a redis handle.
The payload is modelled by its `(run_id, error)` core. -/
def _push_deadletter_redis (redis : Option (List (Nat × String)))
    (run_id : Nat) (error : String) (max_items : Nat) :
    Option (List (Nat × String)) :=
  match redis with
  | none => none
  | some l => some (((run_id, error) :: l).take max_items)

/-- `_write_deadletter_postgres` (worker.py lines 37-87): mark the run
failed/dead-lettered and append one `DeadletterEvent`; `False` when the run
row is missing. -/
def _write_deadletter_postgres (db : Db) (run_id : Nat) (error : String)
    (job_try : Nat) (task_name : String) (now : Nat) : Db × Bool :=
  match scalar_one_or_none db.runs (fun r => r.id = run_id) with
  | none => (db, false)
  | some run =>
    let db := update_run db run_id (fun r =>
      { r with status := "failed",
               error_message := some ("Dead-lettered after repeated failures: "
                 ++ error),
               completed_at := some now,
               progress_message := some "dead-lettered" })
    ({ db with deadletter_events := db.deadletter_events ++
        [{ org_id := run.org_id, run_id := run.id, asset_id := run.asset_id,
           processor_name := run.processor_name,
           processor_version := run.processor_version,
           task_name := task_name, job_try := job_try,
           error_summary := _safe_error_summary (some error),
           error_raw := some error, failed_at := now,
           requeued_at := none }] }, true)

/-- Result of one worker job: final store state, final redis dead-letter
list, and whether the exception was re-raised to the queue. -/
structure WorkerResult where
  db : Db
  redis : Option (List (Nat × String))
  raised : Bool
deriving Repr

/-- `process_intelligence_run` (worker.py lines 90-131): dispatch, and on an
escaped exception either dead-letter (when `job_try ≥ max_tries`) without
re-raising, or re-raise so ARQ retries.  Note: no usage is recorded
anywhere on this path. -/
def process_intelligence_run (db : Db) (run_id : Nat) (ext : DispatchExt)
    (job_try max_tries : Nat) (now : Nat)
    (redis : Option (List (Nat × String))) (max_items : Nat) : WorkerResult :=
  match dispatch_run db run_id ext now with
  | (db, none) => ⟨db, redis, false⟩
  | (db, some e) =>
    if job_try ≥ max_tries then
      let pg := _write_deadletter_postgres db run_id e job_try
        "process_intelligence_run" now
      ⟨pg.1, _push_deadletter_redis redis run_id e max_items, false⟩
    else ⟨db, redis, true⟩

/-! ## In-process background fallback
(app/services/intelligence_service.py lines 122-167) -/

/-- `run_processor_in_background`: run the registered handler, and on
success record usage and persist the cost; on an exception mark the run
`failed` — without setting `completed_at` (lines 159-166). -/
def run_processor_in_background (db : Db) (run_id : Nat)
    (processor_name : String) (ext : DispatchExt) (now : Nat)
    (period : String) : Db :=
  match PROCESSORS_get processor_name with
  | none => db
  | some spec =>
    let cost := estimate_cost processor_name
    match registry_handler spec.name ext db run_id now with
    | (db, none) =>
      match scalar_one_or_none db.runs (fun r => r.id = run_id) with
      | none => db
      | some run =>
        let usage2 := record_usage db.org_usage run.org_id cost period
        let db := { db with org_usage := usage2 }
        update_run db run_id (fun r => { r with estimated_cost_cents := cost })
    | (db, some e) =>
      update_run db run_id (fun r =>
        { r with status := "failed", error_message := some e })

/-! ## Concrete fixtures for counterexamples and witnesses -/

/-- A run row with the store defaults of `intelligence_runs`. -/
def mkRun (id org asset : Nat) (proc status : String) (created : Nat)
    (cr : Bool) : IntelligenceRun :=
  { id := id, org_id := org, asset_id := asset, processor_name := proc,
    processor_version := "1.0.0", status := status, error_message := none,
    created_at := created, completed_at := none, estimated_cost_cents := 0,
    input_fingerprint_signature := none, retry_count := 0,
    last_retry_at := none, progress_current := 0, progress_total := none,
    progress_message := none, cancel_requested := cr, canceled_at := none }

def emptyDb : Db :=
  { runs := [], results := [], search_index := [], deadletter_events := [],
    org_usage := [], organizations := [], assets := [] }

/-- Store with one pending `asset-fingerprint` run (id 5) for asset 9. -/
def fxPendingFpDb : Db :=
  { emptyDb with runs := [mkRun 5 0 9 "asset-fingerprint" "pending" 0 false],
                 assets := [{ id := 9, source_uri := "http://src/9" }] }

/-- Same store, but the run already has `cancel_requested = true`. -/
def fxCancelRequestedDb : Db :=
  { fxPendingFpDb with
      runs := [mkRun 5 0 9 "asset-fingerprint" "pending" 0 true] }

/-- A fingerprint fetch that succeeds with an ETag (no GET needed). -/
def fxOkFp : FingerprintExt :=
  { head := .ok { content_type := some "image/png", content_length := some 10,
                  etag := some "e1", last_modified := none },
    get_sha256 := .ok "deadbeef" }

/-- A fingerprint fetch whose HEAD request raises. -/
def fxFailFp : FingerprintExt :=
  { head := .error "fetch boom", get_sha256 := .error "fetch boom" }

def fxIm : ImageExt := { get := .error "unused", image := .error "unused" }

def fxOkExt : DispatchExt := { fp := fxOkFp, im := fxIm }

def fxFailExt : DispatchExt := { fp := fxFailFp, im := fxIm }

/-- Search-index rows for the near-size counterexample: same org and
content type, sizes 100 and 97. -/
def fxIdxA : AssetSearchIndex :=
  { org_id := 0, asset_id := 1, sha256 := none, etag := none,
    content_type := some "image/png", content_length := some 100,
    last_modified := none, ocr_text_preview := none, ocr_tsv := none,
    updated_at := 0 }

def fxIdxB : AssetSearchIndex :=
  { fxIdxA with asset_id := 2, content_length := some 97 }

/-- Store for the cascade counterexample: one running `asset-fingerprint`
run and 51 pending `ocr-text` runs for asset 7 (ids 1..51, increasing
`created_at`). -/
def fxManyDb : Db :=
  let ocr := (List.range 51).map (fun i =>
    mkRun (i + 1) 0 7 "ocr-text" "pending" (i + 1) false)
  let fp := mkRun 100 0 7 "asset-fingerprint" "running" 1000 false
  { emptyDb with runs := fp :: ocr }

/-- Store for the admission counterexample: a completed fingerprint run
(id 2, signature source via result row) and a pending `image-metadata`
run (id 3) whose `input_fingerprint_signature` is null. -/
def fxAdmissionDb : Db :=
  let fpDone := { mkRun 2 0 9 "asset-fingerprint" "completed" 0 false with completed_at := some 5 }
  let imPending := mkRun 3 0 9 "image-metadata" "pending" 1 false
  let fpData : FingerprintData :=
    { content_type := none, content_length := none, etag := some "abc", last_modified := none, sha256 := none }
  let res : IntelligenceResult :=
    { org_id := 0, asset_id := 9, run_id := 2, type := "fingerprint", data := .fingerprint fpData }
  { emptyDb with runs := [fpDone, imPending], results := [res], organizations := [{ id := 0, plan := "free" }] }

/-- A third index row with the same content type and length as `fxIdxA`. -/
def fxIdxC : AssetSearchIndex := { fxIdxA with asset_id := 3 }

/-- One active fingerprint run and one pending `ocr-text` run. -/
def fxSmallCascadeDb : Db :=
  { emptyDb with runs := [mkRun 100 0 7 "asset-fingerprint" "running" 1000
      false, mkRun 1 0 7 "ocr-text" "pending" 1 false] }

/-- One pending `ocr-text` run with `cancel_requested = true`. -/
def fxOcrCancelDb : Db :=
  { emptyDb with runs := [mkRun 6 0 9 "ocr-text" "pending" 0 true],
                 assets := [{ id := 9, source_uri := "http://src/9" }] }

/-- An OCR external world that would deliver plain text. -/
def fxOcrExt : OcrExt :=
  { get := .ok (), content_type_header := some "text/plain",
    body_text := "hello world", looks_like_image := false,
    looks_like_pdf := false, pypdf_ok := true, pdf_embedded_text := "",
    pytesseract_ok := true, pil_ok := true, pdf2image_ok := true,
    rasterize_ok := true, pdf_page_texts := [], image_to_text := .ok "" }

/-- A second, different OCR external world (a failing GET). -/
def fxOcrExt2 : OcrExt := { fxOcrExt with get := .error "down" }

/-- `fxAdmissionDb` with the pending run's signature matching the current
one, so admission reuses it. -/
def fxAdmissionDb2 : Db :=
  let fpDone := { mkRun 2 0 9 "asset-fingerprint" "completed" 0 false with
    completed_at := some 5 }
  let imPending := { mkRun 3 0 9 "image-metadata" "pending" 1 false with
    input_fingerprint_signature := some "etag:abc" }
  let fpData : FingerprintData :=
    { content_type := none, content_length := none, etag := some "abc",
      last_modified := none, sha256 := none }
  let res : IntelligenceResult :=
    { org_id := 0, asset_id := 9, run_id := 2, type := "fingerprint",
      data := .fingerprint fpData }
  { emptyDb with runs := [fpDone, imPending], results := [res],
                 organizations := [{ id := 0, plan := "free" }] }

/-- Fingerprint data with every field known, for the upsert claims. -/
def fxFpData : FingerprintData :=
  { content_type := some "image/png", content_length := some 1234,
    etag := some "e", last_modified := some "lm", sha256 := some "s" }

/-- A pre-existing search-index row for `(0, 1)` with a stored
`content_length` of 777. -/
def fxIdxExisting : AssetSearchIndex :=
  { org_id := 0, asset_id := 1, sha256 := none, etag := none,
    content_type := none, content_length := some 777, last_modified := none,
    ocr_text_preview := none, ocr_tsv := none, updated_at := 0 }

/-! # General lemmas -/

theorem mem_of_mem_pyStripChars {c : Char} {l : List Char}
    (h : c ∈ pyStripChars l) : c ∈ l := by
  unfold pyStripChars at h
  have h1 := List.mem_reverse.mp h
  have h2 := (List.dropWhile_sublist (l := (l.dropWhile pyIsSpace).reverse)
    (p := pyIsSpace)).mem h1
  have h3 := List.mem_reverse.mp h2
  exact (List.dropWhile_sublist (l := l) (p := pyIsSpace)).mem h3

theorem c5_char_clean (b : Char) :
    ((fun c => if c = '\r' then ' ' else c)
      ((fun c => if c = '\n' then ' ' else c) b)) ≠ '\n' ∧
    ((fun c => if c = '\r' then ' ' else c)
      ((fun c => if c = '\n' then ' ' else c) b)) ≠ '\r' := by
  by_cases h1 : b = '\n' <;> by_cases h2 : b = '\r' <;> simp [h1, h2]

/-! # Claim C5 -/

/-- C5, counterexample: the claim bounds `error_summary` by 200 characters,
but for a 201-character error the code truncates to 200 characters and then
appends an ellipsis, producing a 201-character summary. -/
theorem c5_length_counterexample :
    ∃ e s, _safe_error_summary (some e) = some s ∧ 200 < s.length :=
  ⟨String.mk (List.replicate 201 'a'),
   String.mk (List.replicate 200 'a' ++ ['…']), by decide, by decide⟩

/-- C5, amended: every stored `error_summary` has newline and carriage
return characters replaced by spaces and surrounding whitespace stripped,
and its length is at most 201 characters (at most 200 characters of the
sanitized error plus one appended ellipsis character); a missing or empty
error yields `None`. -/
theorem c5_amended_sanitized_summary :
    _safe_error_summary none = none ∧ _safe_error_summary (some "") = none ∧
    ∀ e s, _safe_error_summary (some e) = some s →
      s.length ≤ 201 ∧ ∀ c ∈ s.data, c ≠ '\n' ∧ c ≠ '\r' := by
  refine ⟨rfl, by decide, ?_⟩
  intro e s h
  unfold _safe_error_summary at h
  by_cases he : e = ""
  · simp [he] at h
  · simp only [he, if_false] at h
    set t := pyStripChars
      ((e.data.map (fun c => if c = '\n' then ' ' else c)).map
        (fun c => if c = '\r' then ' ' else c)) with ht
    have hmem : ∀ c ∈ t, c ≠ '\n' ∧ c ≠ '\r' := by
      intro c hc
      have hc2 := mem_of_mem_pyStripChars (ht ▸ hc)
      rcases List.mem_map.mp hc2 with ⟨a, ha, rfl⟩
      rcases List.mem_map.mp ha with ⟨b, hb, rfl⟩
      exact c5_char_clean b
    by_cases hlen : t.length ≤ 200
    · rw [if_pos hlen] at h
      cases h
      constructor
      · exact le_trans hlen (by omega)
      · exact hmem
    · rw [if_neg hlen] at h
      cases h
      constructor
      · show (t.take 200 ++ ['…']).length ≤ 201
        rw [List.length_append, List.length_take]
        simp
      · intro c hc
        rcases List.mem_append.mp hc with hc | hc
        · exact hmem c (List.mem_of_mem_take hc)
        · rcases List.mem_singleton.mp hc with rfl
          exact ⟨by decide, by decide⟩

/-- C5, witness for the amended theorem at a concrete error string. -/
theorem c5_amended_witness :
    ("x y" : String).length ≤ 201 ∧
    ∀ c ∈ ("x y" : String).data, c ≠ '\n' ∧ c ≠ '\r' :=
  c5_amended_sanitized_summary.2.2 "x\ny" "x y" (by decide)

/-! # Claim C10 -/

/-- C10, confirmed: for an existing organization, `enforce_quota` returns
normally whenever no `OrgUsage` row exists for `(org, period)` — so the
first admission of a calendar month is always allowed regardless of the
plan — and it raises 429/402 only when a usage row exists whose counter
meets or exceeds the corresponding plan limit. -/
theorem c10_quota_vacuous_first_admission (orgs : List Organization)
    (usage_rows : List OrgUsage) (org_id : Nat) (period : String)
    (o : Organization)
    (horg : scalar_one_or_none orgs (fun x => x.id = org_id) = some o) :
    (scalar_one_or_none usage_rows
        (fun u => u.org_id = org_id ∧ u.period = period) = none →
      enforce_quota orgs usage_rows org_id period = .ok) ∧
    (∀ code, enforce_quota orgs usage_rows org_id period = .http_error code →
      ∃ u, scalar_one_or_none usage_rows
          (fun u => u.org_id = org_id ∧ u.period = period) = some u ∧
        ((code = 429 ∧ (plan_limits o).max_runs_per_month ≤
            u.intelligence_runs) ∨
         (code = 402 ∧ (plan_limits o).max_cost_cents_per_month ≤
            u.estimated_cost_cents))) := by
  unfold enforce_quota
  rw [horg]
  constructor
  · intro h
    rw [h]
  · intro code h
    cases husage : scalar_one_or_none usage_rows
        (fun u => u.org_id = org_id ∧ u.period = period) with
    | none => rw [husage] at h; exact absurd h (by simp)
    | some u =>
      rw [husage] at h
      refine ⟨u, rfl, ?_⟩
      by_cases h429 : (plan_limits o).max_runs_per_month ≤ u.intelligence_runs
      · left
        simp only [ge_iff_le, h429, if_true] at h
        cases h
        exact ⟨rfl, h429⟩
      · right
        simp only [ge_iff_le, h429, if_false] at h
        by_cases h402 : (plan_limits o).max_cost_cents_per_month ≤
            u.estimated_cost_cents
        · simp only [h402, if_true] at h
          cases h
          exact ⟨rfl, h402⟩
        · simp only [h402, if_false] at h
          exact absurd h (by simp)

/-- C10, witness: a free-plan organization with no usage rows is admitted. -/
theorem c10_quota_witness :
    enforce_quota [{ id := 0, plan := "free" }] [] 0 "2026-10" = .ok :=
  (c10_quota_vacuous_first_admission [{ id := 0, plan := "free" }] [] 0
    "2026-10" { id := 0, plan := "free" } (by decide)).1 (by decide)

/-! # Claim C6 -/

/-- C6, code bug: the fingerprint upsert writes `sha256`, `etag`,
`content_type`, `last_modified` and `updated_at`, but `content_length` is
neither inserted (the fresh row stores null despite
`fingerprint_data.content_length = 1234`) nor overwritten on conflict (a
pre-existing value 777 survives), contradicting the claim, the spec data
model, and the `content_length` reads in `related_assets_service.py`. -/
theorem c6_fingerprint_upsert_drops_content_length :
    fxFpData.content_length = some 1234 ∧
    (upsert_fingerprint_into_index emptyDb 0 1 fxFpData 9).search_index.map
      (fun r => (r.sha256, r.content_length)) = [(some "s", none)] ∧
    (upsert_fingerprint_into_index
        { emptyDb with search_index := [fxIdxExisting] } 0 1 fxFpData
        9).search_index.map (fun r => (r.sha256, r.content_length)) =
      [(some "s", some 777)] := by decide

/-! # Claim C2 -/

/-- C2, code bug: the in-process background fallback's failure branch
(intelligence_service.py lines 159-166) writes the terminal status `failed`
without setting `completed_at`, so a run whose handler raises there ends in
a terminal state with `completed_at = null`, violating invariant (I1).  All
other write sites listed by the claim do set `completed_at`. -/
theorem c2_background_failure_leaves_completed_at_null :
    (run_processor_in_background fxPendingFpDb 5 "asset-fingerprint"
        fxFailExt 42 "2026-10").runs.map
      (fun r => (r.status, r.completed_at)) = [("failed", none)] ∧
    "failed" ∈ TERMINAL_STATUSES := by decide

/-! # Claim C1 -/

/-- C1, code bug: a run completed through the queue-worker path
(`process_intelligence_run` → `dispatch_run` → handler) records no usage at
all — `record_usage` is called only by the in-process background fallback —
so the `OrgUsage` table is unchanged (still empty) although the run
transitioned to `completed`. -/
theorem c1_worker_completion_records_no_usage :
    (process_intelligence_run fxPendingFpDb 5 fxOkExt 1 3 42 none
        200).db.org_usage = [] ∧
    (process_intelligence_run fxPendingFpDb 5 fxOkExt 1 3 42 none
        200).db.runs.map (fun r => r.status) = ["completed"] ∧
    fxPendingFpDb.org_usage = [] := by decide

/-! # Claim C9, counterexample -/

/-- C9, counterexample: the `asset-fingerprint` handler, invoked on a run
whose `cancel_requested` flag is already true, performs no pre-start check:
it returns normally with the run transitioned through `running` to
`completed` and `canceled_at` still null. -/
theorem c9_prestart_check_counterexample :
    (scalar_one_or_none fxCancelRequestedDb.runs (fun r => r.id = 5)).map
      (fun r => r.cancel_requested) = some true ∧
    (process_fingerprint_run fxCancelRequestedDb 5 fxOkFp 42).2 = none ∧
    (process_fingerprint_run fxCancelRequestedDb 5 fxOkFp 42).1.runs.map
      (fun r => (r.status, r.canceled_at)) = [("completed", none)] := by
  decide

/-! # Claim C7, counterexample -/

/-- C7, counterexample: with sizes 100 (asset 1) and 97 (asset 2) of the
same content type, asset 2 satisfies the claim's inclusion condition
relative to asset 1 (3/100 ≤ 0.03) and appears in asset 1's `near_size`
bucket, but asset 1 does not appear in asset 2's bucket: the window is
computed relative to the source length (here `[94, 99]`), so the relation
is not symmetric. -/
theorem c7_near_size_symmetry_counterexample :
    near_size_condition (fxIdxA.content_length.getD 0)
      (fxIdxB.content_length.getD 0) ∧
    fxIdxB ∈ near_size_bucket [fxIdxA, fxIdxB] fxIdxA 20 ∧
    fxIdxA ∉ near_size_bucket [fxIdxA, fxIdxB] fxIdxB 20 := by
  refine ⟨?_, by decide, by decide⟩
  exact ⟨by decide, by decide, by decide⟩

/-! # Claim C8, counterexample -/

/-- C8, counterexample: with 51 non-terminal `ocr-text` runs for the asset,
cancelling the latest `asset-fingerprint` run with `cascade=true` leaves
the oldest `ocr-text` run (id 1, outside the 50-row cap of the cascade
select) with `cancel_requested = false`. -/
theorem c8_cascade_counterexample :
    ∃ r, r ∈ (request_cancel_latest_run_for_asset fxManyDb 0 7
        "asset-fingerprint" true).1.runs ∧
      r.processor_name = "ocr-text" ∧ ¬ r.status ∈ TERMINAL_STATUSES ∧
      r.cancel_requested = false :=
  ⟨mkRun 1 0 7 "ocr-text" "pending" 1 false, by decide, by decide, by decide,
   by decide⟩

/-! # Lemmas about the `order_by`/`limit` machinery -/

theorem insert_desc_by_perm {α : Type} (key : α → Nat) (x : α) (l : List α) :
    (insert_desc_by key x l).Perm (x :: l) := by
  induction l with
  | nil => exact List.Perm.refl _
  | cons y ys ih =>
    unfold insert_desc_by
    by_cases h : key y < key x
    · rw [if_pos h]
    · rw [if_neg h]
      exact (List.Perm.cons y ih).trans (List.Perm.swap x y ys)

theorem sort_desc_by_perm {α : Type} (key : α → Nat) (l : List α) :
    (sort_desc_by key l).Perm l := by
  induction l with
  | nil => exact List.Perm.refl _
  | cons x xs ih =>
    exact (insert_desc_by_perm key x (sort_desc_by key xs)).trans
      (List.Perm.cons x ih)

theorem mem_sort_desc_by {α : Type} {key : α → Nat} {l : List α} {a : α} :
    a ∈ sort_desc_by key l ↔ a ∈ l :=
  (sort_desc_by_perm key l).mem_iff

theorem length_sort_desc_by {α : Type} (key : α → Nat) (l : List α) :
    (sort_desc_by key l).length = l.length :=
  (sort_desc_by_perm key l).length_eq

theorem insert_asc_by_perm {α : Type} (key : α → Nat) (x : α) (l : List α) :
    (insert_asc_by key x l).Perm (x :: l) := by
  induction l with
  | nil => exact List.Perm.refl _
  | cons y ys ih =>
    unfold insert_asc_by
    by_cases h : key x < key y
    · rw [if_pos h]
    · rw [if_neg h]
      exact (List.Perm.cons y ih).trans (List.Perm.swap x y ys)

theorem sort_asc_by_perm {α : Type} (key : α → Nat) (l : List α) :
    (sort_asc_by key l).Perm l := by
  induction l with
  | nil => exact List.Perm.refl _
  | cons x xs ih =>
    exact (insert_asc_by_perm key x (sort_asc_by key xs)).trans
      (List.Perm.cons x ih)

theorem mem_sort_asc_by {α : Type} {key : α → Nat} {l : List α} {a : α} :
    a ∈ sort_asc_by key l ↔ a ∈ l :=
  (sort_asc_by_perm key l).mem_iff

theorem length_sort_asc_by {α : Type} (key : α → Nat) (l : List α) :
    (sort_asc_by key l).length = l.length :=
  (sort_asc_by_perm key l).length_eq

/-- Inserting a strictly smaller element below a maximal head keeps the
head. -/
theorem insert_desc_by_head {α : Type} {key : α → Nat} {x R : α} {t : List α}
    (h : key x < key R) :
    insert_desc_by key x (R :: t) = R :: insert_desc_by key x t := by
  rw [insert_desc_by, if_neg (Nat.lt_asymm h)]

/-- The element with strictly maximal key, appended last, sorts to the
head. -/
theorem sort_desc_by_append_max {α : Type} {key : α → Nat} {R : α}
    {l : List α} (h : ∀ b ∈ l, key b < key R) :
    (sort_desc_by key (l ++ [R])).head? = some R := by
  induction l with
  | nil => rfl
  | cons x xs ih =>
    have hx : key x < key R := h x (by simp)
    have ih2 := ih (fun b hb => h b (by simp [hb]))
    show (insert_desc_by key x (sort_desc_by key (xs ++ [R]))).head? = some R
    cases hsort : sort_desc_by key (xs ++ [R]) with
    | nil => rw [hsort] at ih2; simp at ih2
    | cons y t =>
      rw [hsort] at ih2
      simp only [List.head?_cons, Option.some.injEq] at ih2
      subst ih2
      rw [insert_desc_by_head hx]
      rfl

/-! # Lemmas about queries over row lists -/

theorem scalar_some_facts {α : Type} {l : List α} {p : α → Bool} {x : α}
    (h : scalar_one_or_none l p = some x) : x ∈ l ∧ p x = true := by
  unfold scalar_one_or_none at h
  have hmem := List.mem_of_mem_head? h
  exact ⟨List.mem_of_mem_filter hmem, List.of_mem_filter hmem⟩

theorem scalar_cons_pos {α : Type} {p : α → Bool} {r : α} {t : List α}
    (h : p r = true) : scalar_one_or_none (r :: t) p = some r := by
  unfold scalar_one_or_none
  rw [List.filter_cons, if_pos h]
  rfl

theorem scalar_cons_neg {α : Type} {p : α → Bool} {r : α} {t : List α}
    (h : p r = false) :
    scalar_one_or_none (r :: t) p = scalar_one_or_none t p := by
  unfold scalar_one_or_none
  rw [List.filter_cons, if_neg (by simp [h])]

theorem scalar_exists_of_mem_ids {l : List IntelligenceRun} {rid : Nat}
    (h : rid ∈ l.map (fun r => r.id)) :
    ∃ x, scalar_one_or_none l (fun r => r.id = rid) = some x ∧ x.id = rid := by
  induction l with
  | nil => simp at h
  | cons r t ih =>
    by_cases hr : r.id = rid
    · exact ⟨r, scalar_cons_pos (by simp [hr]), hr⟩
    · have h2 : rid ∈ t.map (fun r => r.id) := by
        simp only [List.map_cons, List.mem_cons] at h
        rcases h with h | h
        · exact absurd h.symm hr
        · exact h
      rcases ih h2 with ⟨x, hx, hxid⟩
      exact ⟨x, (scalar_cons_neg (by simp [hr])).trans hx, hxid⟩

theorem scalar_conj_org {l : List IntelligenceRun} {rid org : Nat}
    {x : IntelligenceRun}
    (h : scalar_one_or_none l (fun r => r.id = rid) = some x)
    (horg : x.org_id = org) :
    scalar_one_or_none l (fun r => r.id = rid ∧ r.org_id = org) = some x := by
  induction l with
  | nil => simp [scalar_one_or_none] at h
  | cons r t ih =>
    by_cases hr : r.id = rid
    · have hx : r = x := by
        have := (scalar_cons_pos (p := fun r => decide (r.id = rid))
          (r := r) (t := t) (by simp [hr])).symm.trans h
        exact Option.some.inj this
      subst hx
      exact scalar_cons_pos (by simp [hr, horg])
    · have h2 := (scalar_cons_neg (p := fun r => decide (r.id = rid))
        (r := r) (t := t) (by simp [hr])).symm.trans h
      exact (scalar_cons_neg (by simp [hr])).trans (ih h2)

/-- Mapping an element-wise fixable function commutes with a filter that it
does not disturb. -/
theorem filter_map_eq {α : Type} {l : List α} {f : α → α} {p : α → Bool}
    (h : ∀ x ∈ l, p (f x) = p x ∧ (p x = true → f x = x)) :
    (l.map f).filter p = l.filter p := by
  induction l with
  | nil => rfl
  | cons x xs ih =>
    have hx := h x (by simp)
    have ih2 := ih (fun y hy => h y (by simp [hy]))
    simp only [List.map_cons, List.filter]
    rw [hx.1]
    cases hp : p x with
    | false => exact ih2
    | true => rw [hx.2 hp, ih2]

theorem mem_update_run {db : Db} {rid : Nat}
    {f : IntelligenceRun → IntelligenceRun} {r : IntelligenceRun}
    (h : r ∈ (update_run db rid f).runs) :
    ∃ r₀, r₀ ∈ db.runs ∧
      ((r₀.id = rid ∧ r = f r₀) ∨ (¬ r₀.id = rid ∧ r = r₀)) := by
  simp only [update_run] at h
  rcases List.mem_map.mp h with ⟨r₀, h₀, hr⟩
  by_cases hid : r₀.id = rid
  · exact ⟨r₀, h₀, Or.inl ⟨hid, by rw [← hr, if_pos hid]⟩⟩
  · exact ⟨r₀, h₀, Or.inr ⟨hid, by rw [← hr, if_neg hid]⟩⟩

theorem update_run_ids {db : Db} {rid : Nat}
    {f : IntelligenceRun → IntelligenceRun} (hf : ∀ r, (f r).id = r.id) :
    (update_run db rid f).runs.map (fun r => r.id) =
      db.runs.map (fun r => r.id) := by
  simp only [update_run, List.map_map]
  refine List.map_congr_left (fun r _ => ?_)
  by_cases hid : r.id = rid
  · simp [hid, hf]
  · simp [hid]

/-! # Claim C7, amended -/

/-- C7, amended: the near-size inclusion window is computed relative to the
source asset's length, so the relation is symmetric only upward: if B
appears in A's `near_size` candidate set and B's known size is at least A's
(both positive), then A satisfies the inclusion condition relative to B and
appears in B's candidate set; it then also appears in B's bucket provided
B's candidate set is within `limit_per_bucket` (the cap can otherwise drop
it). -/
theorem c7_amended_near_size_symmetry (index : List AssetSearchIndex)
    (limit : Nat) (A B : AssetSearchIndex) (hA : A ∈ index)
    (hB : B ∈ near_size_bucket index A limit)
    (hpos : 0 < B.content_length.getD 0)
    (hle : A.content_length.getD 0 ≤ B.content_length.getD 0)
    (hcount : (near_size_filter index B).length ≤ limit) :
    A ∈ near_size_filter index B ∧ A ∈ near_size_bucket index B limit := by
  have hBf : B ∈ near_size_filter index A := by
    have h1 := List.mem_of_mem_take hB
    exact mem_sort_asc_by.mp h1
  rw [near_size_filter] at hBf
  by_cases hg : A.content_type.getD "" ≠ "" ∧ A.content_length.getD 0 ≠ 0
  case neg => rw [if_neg hg] at hBf; simp at hBf
  rw [if_pos hg] at hBf
  have hBmem := List.mem_of_mem_filter hBf
  have hBpred := List.of_mem_filter hBf
  simp only [decide_eq_true_eq] at hBpred
  obtain ⟨horg, hct, hsome, hlow, hhigh, hne⟩ := hBpred
  have hAf : A ∈ near_size_filter index B := by
    rw [near_size_filter]
    have hgB : B.content_type.getD "" ≠ "" ∧ B.content_length.getD 0 ≠ 0 := by
      constructor
      · rw [hct]; exact hg.1
      · omega
    rw [if_pos hgB]
    refine List.mem_filter.mpr ⟨hA, ?_⟩
    simp only [decide_eq_true_eq]
    have hAsome : A.content_length.isSome := by
      cases hcl : A.content_length with
      | none => exact absurd (by rw [hcl]; rfl) hg.2
      | some v => rfl
    refine ⟨horg.symm, hct.symm, hAsome, ?_, ?_, fun he => hne he.symm⟩
    · omega
    · omega
  refine ⟨hAf, ?_⟩
  rw [near_size_bucket]
  have hlen : (sort_asc_by (fun r => Nat.dist (r.content_length.getD 0)
      (B.content_length.getD 0)) (near_size_filter index B)).length ≤ limit := by
    rw [length_sort_asc_by]
    exact hcount
  rw [List.take_of_length_le hlen]
  exact mem_sort_asc_by.mpr hAf

/-- C7, witness: two assets of identical size 100 appear in each other's
near-size buckets. -/
theorem c7_amended_witness :
    fxIdxA ∈ near_size_filter [fxIdxA, fxIdxC] fxIdxC ∧
    fxIdxA ∈ near_size_bucket [fxIdxA, fxIdxC] fxIdxC 20 :=
  c7_amended_near_size_symmetry [fxIdxA, fxIdxC] 20 fxIdxA fxIdxC
    (by decide) (by decide) (by decide) (by decide) (by decide)

/-- Two rows of a primary-key-unique table with the same id are the same
row. -/
theorem eq_of_nodup_ids {l : List IntelligenceRun}
    (h : (l.map (fun r => r.id)).Nodup) {x y : IntelligenceRun} (hx : x ∈ l)
    (hy : y ∈ l) (hid : x.id = y.id) : x = y :=
  List.inj_on_of_nodup_map h hx hy hid

/-! # Claim C9, amended -/

/-- C9, amended: of the three handlers only `ocr-text` performs the
pre-start check.  `process_ocr_run`, invoked on a run whose
`cancel_requested` flag is already true, terminates the run with
`status = canceled` and `canceled_at = completed_at = now`, returns without
raising, produces the same outcome for every external world (so no fetch or
processing work is observable), and leaves results and search index
untouched; it never transitions the run to `running`.  The
`asset-fingerprint` and `image-metadata` handlers perform no such check
(see the counterexample). -/
theorem c9_amended_ocr_prestart_cancel (db : Db) (run_id : Nat)
    (ext : OcrExt) (lang : String) (now : Nat) (run : IntelligenceRun)
    (hnodup : (db.runs.map (fun r => r.id)).Nodup)
    (hrun : scalar_one_or_none db.runs (fun r => r.id = run_id) = some run)
    (hcr : run.cancel_requested = true) :
    process_ocr_run db run_id ext lang now =
      (mark_run_canceled db run.org_id run.id (some "canceled before start")
        now, none) ∧
    (∀ ext2, process_ocr_run db run_id ext2 lang now =
      process_ocr_run db run_id ext lang now) ∧
    (∀ r ∈ (process_ocr_run db run_id ext lang now).1.runs, r.id = run_id →
      r.status = "canceled" ∧ r.canceled_at = some now ∧
        r.completed_at = some now) ∧
    (process_ocr_run db run_id ext lang now).1.results = db.results ∧
    (process_ocr_run db run_id ext lang now).1.search_index =
      db.search_index := by
  have hid : run.id = run_id := by
    have := (scalar_some_facts hrun).2
    simpa using this
  have hrunmem : run ∈ db.runs := (scalar_some_facts hrun).1
  subst hid
  have hflag : is_cancel_requested db run.org_id run.id = true := by
    unfold is_cancel_requested
    rw [scalar_conj_org hrun rfl]
    exact hcr
  have key : ∀ e : OcrExt, process_ocr_run db run.id e lang now =
      (mark_run_canceled db run.org_id run.id (some "canceled before start")
        now, none) := by
    intro e
    simp [process_ocr_run, hrun, hflag]
  refine ⟨key ext, fun e2 => (key e2).trans (key ext).symm, ?_, ?_, ?_⟩
  · rw [key ext]
    intro r hr hid2
    simp only [mark_run_canceled] at hr
    rcases List.mem_map.mp hr with ⟨r₀, h₀, rfl⟩
    by_cases hc : r₀.id = run.id ∧ r₀.org_id = run.org_id
    · simp [hc]
    · exfalso
      have hid0 : r₀.id = run.id := by
        by_cases hcc : r₀.id = run.id ∧ r₀.org_id = run.org_id
        · exact hcc.1
        · rw [if_neg hcc] at hid2; exact hid2
      have : r₀ = run := eq_of_nodup_ids hnodup h₀ hrunmem hid0
      exact hc ⟨hid0, by rw [this]⟩
  · rw [key ext]
    rfl
  · rw [key ext]
    rfl

/-- C9, witness: a cancel-requested `ocr-text` run is terminated `canceled`
by the pre-start check, identically for two different external worlds. -/
theorem c9_amended_witness :
    process_ocr_run fxOcrCancelDb 6 fxOcrExt "eng" 42 =
      (mark_run_canceled fxOcrCancelDb 0 6 (some "canceled before start") 42,
        none) ∧
    process_ocr_run fxOcrCancelDb 6 fxOcrExt2 "eng" 42 =
      process_ocr_run fxOcrCancelDb 6 fxOcrExt "eng" 42 := by
  have h := c9_amended_ocr_prestart_cancel fxOcrCancelDb 6 fxOcrExt "eng" 42
    (mkRun 6 0 9 "ocr-text" "pending" 0 true) (by decide) (by decide)
    (by decide)
  exact ⟨h.1, h.2.1 fxOcrExt2⟩

/-! # Preservation lemmas: handlers and dispatcher never touch the
dead-letter table, and never create or delete run rows -/

theorem update_run_events (db : Db) (rid : Nat)
    (f : IntelligenceRun → IntelligenceRun) :
    (update_run db rid f).deadletter_events = db.deadletter_events := rfl

theorem upsert_fp_events (db : Db) (o a : Nat) (fp : FingerprintData)
    (now : Nat) :
    (upsert_fingerprint_into_index db o a fp now).deadletter_events =
      db.deadletter_events := by
  unfold upsert_fingerprint_into_index
  split <;> rfl

theorem upsert_fp_runs (db : Db) (o a : Nat) (fp : FingerprintData)
    (now : Nat) :
    (upsert_fingerprint_into_index db o a fp now).runs = db.runs := by
  unfold upsert_fingerprint_into_index
  split <;> rfl

theorem fp_handler_events (db : Db) (rid : Nat) (ext : FingerprintExt)
    (now : Nat) :
    ((process_fingerprint_run db rid ext now).1).deadletter_events =
      db.deadletter_events := by
  unfold process_fingerprint_run
  repeat (any_goals ((try dsimp only); split))
  all_goals simp [update_run_events, upsert_fp_events]

theorem im_handler_events (db : Db) (rid : Nat) (ext : ImageExt) (now : Nat) :
    ((process_image_metadata_run db rid ext now).1).deadletter_events =
      db.deadletter_events := by
  unfold process_image_metadata_run
  repeat (any_goals ((try dsimp only); split))
  all_goals simp [update_run_events]

theorem registry_handler_events (name : String) (ext : DispatchExt) (db : Db)
    (rid now : Nat) :
    ((registry_handler name ext db rid now).1).deadletter_events =
      db.deadletter_events := by
  unfold registry_handler
  split
  · exact im_handler_events db rid ext.im now
  · exact fp_handler_events db rid ext.fp now

theorem dispatch_run_events (db : Db) (rid : Nat) (ext : DispatchExt)
    (now : Nat) :
    ((dispatch_run db rid ext now).1).deadletter_events =
      db.deadletter_events := by
  unfold dispatch_run
  cases hs : scalar_one_or_none db.runs (fun r => r.id = rid) with
  | none => rfl
  | some run =>
    dsimp only
    by_cases hterm : run.status = "completed" ∨ run.status = "failed" ∨
        run.status = "canceled"
    · rw [if_pos hterm]
    · rw [if_neg hterm]
      cases hp : PROCESSORS_get run.processor_name with
      | none => rfl
      | some spec =>
        dsimp only
        have hre := registry_handler_events spec.name ext db rid now
        cases hh : registry_handler spec.name ext db rid now with
        | mk db' e =>
          rw [hh] at hre
          cases e with
          | none => exact hre
          | some err =>
            dsimp only
            simpa [update_run_events] using hre

/-! # Claim C4 -/

/-- C4, confirmed: when dispatch lets an exception escape on a try with
`job_try ≥ max_tries`, the worker dead-letters the run — status `failed`
with the `"Dead-lettered after repeated failures: "` prefix,
`progress_message = "dead-lettered"`, `completed_at` set — appends exactly
one `DeadletterEvent` (relative to the pre-job store; dispatch and handlers
never write that table) carrying `job_try` and the raw and sanitized error,
and does not re-raise; with `job_try < max_tries` it re-raises unchanged
and writes no event. -/
theorem c4_deadletter_semantics (db : Db) (rid : Nat) (ext : DispatchExt)
    (jt mt now : Nat) (redis : Option (List (Nat × String))) (mi : Nat)
    (db₁ : Db) (e : String)
    (hdisp : dispatch_run db rid ext now = (db₁, some e))
    (hrun : rid ∈ db₁.runs.map (fun r => r.id)) :
    (mt ≤ jt →
      (process_intelligence_run db rid ext jt mt now redis mi).raised =
        false ∧
      (∃ ev, (process_intelligence_run db rid ext jt mt now redis
            mi).db.deadletter_events = db.deadletter_events ++ [ev] ∧
          ev.run_id = rid ∧ ev.job_try = jt ∧ ev.error_raw = some e ∧
          ev.error_summary = _safe_error_summary (some e) ∧
          ev.task_name = "process_intelligence_run" ∧ ev.failed_at = now) ∧
      (∀ r ∈ (process_intelligence_run db rid ext jt mt now redis
            mi).db.runs, r.id = rid → r.status = "failed" ∧
          r.error_message =
            some ("Dead-lettered after repeated failures: " ++ e) ∧
          r.progress_message = some "dead-lettered" ∧
          r.completed_at = some now)) ∧
    (jt < mt →
      process_intelligence_run db rid ext jt mt now redis mi =
        ⟨db₁, redis, true⟩ ∧
      db₁.deadletter_events = db.deadletter_events) := by
  have hev : db₁.deadletter_events = db.deadletter_events := by
    have h := dispatch_run_events db rid ext now
    rw [hdisp] at h
    exact h
  obtain ⟨run', hrun', hid'⟩ := scalar_exists_of_mem_ids hrun
  constructor
  · intro hge
    unfold process_intelligence_run
    rw [hdisp]
    dsimp only
    rw [if_pos hge]
    unfold _write_deadletter_postgres
    rw [hrun']
    dsimp only
    refine ⟨rfl,
      ⟨{ org_id := run'.org_id, run_id := run'.id, asset_id := run'.asset_id,
         processor_name := run'.processor_name,
         processor_version := run'.processor_version,
         task_name := "process_intelligence_run", job_try := jt,
         error_summary := _safe_error_summary (some e), error_raw := some e,
         failed_at := now, requeued_at := none },
       ?_, hid', rfl, rfl, rfl, rfl, rfl⟩, ?_⟩
    · rw [← hev]
      rfl
    · intro r hr hidr
      rcases mem_update_run hr with ⟨r₀, h₀, hcase⟩
      rcases hcase with ⟨hi, rfl⟩ | ⟨hi, rfl⟩
      · exact ⟨rfl, rfl, rfl, rfl⟩
      · exact absurd hidr hi
  · intro hlt
    unfold process_intelligence_run
    rw [hdisp]
    dsimp only
    rw [if_neg (by omega)]
    exact ⟨rfl, hev⟩

/-- C4, witness: a fingerprint run whose HEAD request keeps failing is
dead-lettered on try 3 of 3 without re-raising. -/
theorem c4_deadletter_semantics_witness :
    (process_intelligence_run fxPendingFpDb 5 fxFailExt 3 3 42 none
      200).raised = false ∧
    (process_intelligence_run fxPendingFpDb 5 fxFailExt 1 3 42 none 200) =
      ⟨(dispatch_run fxPendingFpDb 5 fxFailExt 42).1, none, true⟩ := by
  have h := c4_deadletter_semantics fxPendingFpDb 5 fxFailExt 3 3 42 none 200
    (dispatch_run fxPendingFpDb 5 fxFailExt 42).1 "fetch boom"
    (by decide) (by decide)
  have h2 := c4_deadletter_semantics fxPendingFpDb 5 fxFailExt 1 3 42 none 200
    (dispatch_run fxPendingFpDb 5 fxFailExt 42).1 "fetch boom"
    (by decide) (by decide)
  exact ⟨(h.1 (by decide)).1, (h2.2 (by decide)).1⟩

/-! # Claim C8, amended -/

/-- Core of the amended C8: `_cascade_cancel_asset_runs` with the `ocr-text`
processor filter sets `cancel_requested` on every run among the 50 newest
selected rows, provided run ids are unique and the excluded run is not an
`ocr-text` run. -/
theorem cascade_cancels_selected (db : Db) (org_id asset_id excl : Nat)
    (hnodup : (db.runs.map (fun r => r.id)).Nodup)
    (hexcl : ∀ x ∈ db.runs, x.id = excl → ¬ x.processor_name = "ocr-text") :
    ∀ r ∈ (_cascade_cancel_asset_runs db org_id asset_id (some excl)
        (some ["ocr-text"])).runs,
      r.id ∈ ((sort_desc_by (fun r => r.created_at)
          ((db.runs.filter (fun r => r.org_id = org_id ∧
            r.asset_id = asset_id ∧ ¬ r.status ∈ TERMINAL_STATUSES)).filter
            (fun r => r.processor_name ∈ ["ocr-text"]))).take 50).map
          (fun x => x.id) →
      r.cancel_requested = true := by
  intro r hr hid
  obtain ⟨s, hsSel, hsid⟩ := List.mem_map.mp hid
  have hsSort := List.mem_of_mem_take hsSel
  have hsq2 := mem_sort_desc_by.mp hsSort
  have hsq1 := List.mem_of_mem_filter hsq2
  have hsmem := List.mem_of_mem_filter hsq1
  have hsproc : s.processor_name = "ocr-text" := by
    have := List.of_mem_filter hsq2
    simpa using this
  have hsNT : s.org_id = org_id ∧ s.asset_id = asset_id ∧
      ¬ s.status ∈ TERMINAL_STATUSES := by
    have := List.of_mem_filter hsq1
    simpa using this
  have hsexcl : ¬ s.id = excl := fun h =>
    hexcl s hsmem h (by rw [hsproc])
  simp only [_cascade_cancel_asset_runs] at hr
  by_cases hemp : (((sort_desc_by (fun r => r.created_at)
      ((db.runs.filter (fun r => r.org_id = org_id ∧ r.asset_id = asset_id ∧
        ¬ r.status ∈ TERMINAL_STATUSES)).filter
        (fun r => r.processor_name ∈ ["ocr-text"]))).take 50).filter
      (fun r => ¬ (some excl = some r.id) ∧ ¬ r.cancel_requested)).map
      (fun r => r.id) = []
  · rw [if_pos (by rw [hemp]; rfl)] at hr
    have hfil := List.map_eq_nil_iff.mp hemp
    have hall := List.filter_eq_nil_iff.mp hfil
    have hsflag : s.cancel_requested = true := by
      have hna := hall s hsSel
      by_cases hf : s.cancel_requested
      · exact hf
      · exfalso
        apply hna
        simp only [decide_eq_true_eq]
        exact ⟨fun h => hsexcl (Option.some.inj h).symm, hf⟩
    have hreq : r = s := eq_of_nodup_ids hnodup hr hsmem hsid.symm
    rw [hreq, hsflag]
  · have hcond : ¬ ((((sort_desc_by (fun r => r.created_at)
        ((db.runs.filter (fun r => r.org_id = org_id ∧ r.asset_id = asset_id ∧
          ¬ r.status ∈ TERMINAL_STATUSES)).filter
          (fun r => r.processor_name ∈ ["ocr-text"]))).take 50).filter
        (fun r => ¬ (some excl = some r.id) ∧ ¬ r.cancel_requested)).map
        (fun r => r.id)).isEmpty = true := by
      intro h
      exact hemp (List.isEmpty_iff.mp h)
    rw [if_neg hcond] at hr
    rcases List.mem_map.mp hr with ⟨r₀, h₀, hr0⟩
    have hid0 : r₀.id = r.id := by
      rw [← hr0]
      split <;> rfl
    have hrs : r₀ = s := eq_of_nodup_ids hnodup h₀ hsmem
      (hid0.trans hsid.symm)
    rw [← hr0]
    by_cases hflag : s.cancel_requested
    · split
      · rfl
      · rw [hrs]
        exact hflag
    · have hpf : s ∈ ((sort_desc_by (fun r => r.created_at)
          ((db.runs.filter (fun r => r.org_id = org_id ∧
            r.asset_id = asset_id ∧ ¬ r.status ∈ TERMINAL_STATUSES)).filter
            (fun r => r.processor_name ∈ ["ocr-text"]))).take 50).filter
          (fun r => ¬ (some excl = some r.id) ∧ ¬ r.cancel_requested) := by
        refine List.mem_filter.mpr ⟨hsSel, ?_⟩
        simp only [decide_eq_true_eq]
        exact ⟨fun h => hsexcl (Option.some.inj h).symm, hflag⟩
      have hin : r₀.id ∈ (((sort_desc_by (fun r => r.created_at)
          ((db.runs.filter (fun r => r.org_id = org_id ∧
            r.asset_id = asset_id ∧ ¬ r.status ∈ TERMINAL_STATUSES)).filter
            (fun r => r.processor_name ∈ ["ocr-text"]))).take 50).filter
          (fun r => ¬ (some excl = some r.id) ∧
            ¬ r.cancel_requested)).map (fun r => r.id) :=
        List.mem_map.mpr ⟨s, hpf, by rw [← hrs]⟩
      rw [if_pos ⟨by rw [hrs]; exact hsNT.1, by rw [hrs]; exact hsNT.2.1,
        hin⟩]

/-- C8, amended: after cancelling the latest active `asset-fingerprint` run
for an asset with `cascade=true`, every `ocr-text` run for that asset that
is non-terminal and **among the 50 most recently created such runs** (the
cascade select is capped by `.limit(50)`) has `cancel_requested = true`;
runs beyond that cap may be missed (see the counterexample). -/
theorem c8_amended_cascade_cancels_newest_50 (db : Db) (org_id asset_id : Nat)
    (hnodup : (db.runs.map (fun r => r.id)).Nodup)
    (fpRun : IntelligenceRun)
    (hfp : (sort_desc_by (fun r => r.created_at)
        (db.runs.filter (fun r => r.org_id = org_id ∧ r.asset_id = asset_id ∧
          r.processor_name = "asset-fingerprint" ∧
          ¬ r.status ∈ TERMINAL_STATUSES))).head? = some fpRun) :
    ∀ r ∈ (request_cancel_latest_run_for_asset db org_id asset_id
        "asset-fingerprint" true).1.runs,
      r.id ∈ ((sort_desc_by (fun r => r.created_at)
          ((db.runs.filter (fun r => r.org_id = org_id ∧
            r.asset_id = asset_id ∧ ¬ r.status ∈ TERMINAL_STATUSES)).filter
            (fun r => r.processor_name ∈ ["ocr-text"]))).take 50).map
          (fun x => x.id) →
      r.cancel_requested = true := by
  have hfpmem : fpRun ∈ db.runs := by
    have h1 := List.mem_of_mem_head? hfp
    exact List.mem_of_mem_filter (mem_sort_desc_by.mp h1)
  have hfppred : fpRun.org_id = org_id ∧ fpRun.asset_id = asset_id ∧
      fpRun.processor_name = "asset-fingerprint" ∧
      ¬ fpRun.status ∈ TERMINAL_STATUSES := by
    have h1 := List.mem_of_mem_head? hfp
    have := List.of_mem_filter (mem_sort_desc_by.mp h1)
    simpa using this
  have hn : normalize_processor_name "asset-fingerprint" =
      "asset-fingerprint" := by decide
  simp only [request_cancel_latest_run_for_asset, hn]
  rw [if_neg (by decide)]
  rw [hfp]
  dsimp only
  rw [if_pos ⟨trivial, trivial⟩]
  cases hfc : fpRun.cancel_requested with
  | true =>
    rw [if_neg (by decide)]
    intro r hr hid
    refine cascade_cancels_selected db org_id asset_id fpRun.id hnodup
      ?_ r hr hid
    intro x hx hxid
    have : x = fpRun := eq_of_nodup_ids hnodup hx hfpmem hxid
    rw [this, hfppred.2.2.1]
    decide
  | false =>
    rw [if_pos (by decide)]
    set f : IntelligenceRun → IntelligenceRun := fun r =>
      if r.id = fpRun.id then { r with cancel_requested := true } else r
      with hf
    have hids : (db.runs.map f).map (fun r => r.id) =
        db.runs.map (fun r => r.id) := by
      rw [List.map_map]
      refine List.map_congr_left (fun x _ => ?_)
      by_cases hx : x.id = fpRun.id <;> simp [hf, hx]
    have hnodup₁ : ((db.runs.map f).map (fun r => r.id)).Nodup := by
      rw [hids]
      exact hnodup
    have hexcl₁ : ∀ x ∈ db.runs.map f, x.id = fpRun.id →
        ¬ x.processor_name = "ocr-text" := by
      intro x hx hxid
      rcases List.mem_map.mp hx with ⟨x₀, h₀, rfl⟩
      have hx0id : x₀.id = fpRun.id := by
        by_cases hc : x₀.id = fpRun.id
        · exact hc
        · rw [hf] at hxid
          simp only [if_neg hc] at hxid
          exact absurd hxid hc
      have hx0 : x₀ = fpRun := eq_of_nodup_ids hnodup h₀ hfpmem hx0id
      have hproc : (f x₀).processor_name = x₀.processor_name := by
        by_cases hc : x₀.id = fpRun.id <;> simp [hf, hc]
      rw [hproc, hx0, hfppred.2.2.1]
      decide
    have hfeq : (((db.runs.map f).filter (fun r => r.org_id = org_id ∧
        r.asset_id = asset_id ∧ ¬ r.status ∈ TERMINAL_STATUSES)).filter
        (fun r => r.processor_name ∈ ["ocr-text"])) =
        ((db.runs.filter (fun r => r.org_id = org_id ∧
        r.asset_id = asset_id ∧ ¬ r.status ∈ TERMINAL_STATUSES)).filter
        (fun r => r.processor_name ∈ ["ocr-text"])) := by
      rw [List.filter_filter, List.filter_filter]
      refine filter_map_eq (fun x hx => ⟨?_, ?_⟩)
      · by_cases hc : x.id = fpRun.id <;> simp [hf, hc]
      · intro hpx
        have hxproc : x.processor_name = "ocr-text" := by
          simp only [Bool.and_eq_true, decide_eq_true_eq] at hpx
          simpa using hpx.1
        by_cases hc : x.id = fpRun.id
        · exfalso
          have : x = fpRun := eq_of_nodup_ids hnodup hx hfpmem hc
          rw [this, hfppred.2.2.1] at hxproc
          exact absurd hxproc (by decide)
        · simp [hf, hc]
    intro r hr hid
    refine cascade_cancels_selected { db with runs := db.runs.map f } org_id
      asset_id fpRun.id hnodup₁ hexcl₁ r hr ?_
    show r.id ∈ ((sort_desc_by (fun r => r.created_at)
        (((db.runs.map f).filter (fun r => r.org_id = org_id ∧
          r.asset_id = asset_id ∧ ¬ r.status ∈ TERMINAL_STATUSES)).filter
          (fun r => r.processor_name ∈ ["ocr-text"]))).take 50).map
        (fun x => x.id)
    rw [hfeq]
    exact hid

/-- C8, witness: with one active fingerprint run and one pending `ocr-text`
run, the cascade sets the flag on the `ocr-text` run. -/
theorem c8_amended_witness :
    ({ mkRun 1 0 7 "ocr-text" "pending" 1 false with
        cancel_requested := true }) ∈
      (request_cancel_latest_run_for_asset fxSmallCascadeDb 0 7
        "asset-fingerprint" true).1.runs ∧
    ({ mkRun 1 0 7 "ocr-text" "pending" 1 false with
        cancel_requested := true }).cancel_requested = true := by
  refine ⟨by decide, ?_⟩
  exact c8_amended_cascade_cancels_newest_50 fxSmallCascadeDb 0 7 (by decide)
    (mkRun 100 0 7 "asset-fingerprint" "running" 1000 false) (by decide)
    ({ mkRun 1 0 7 "ocr-text" "pending" 1 false with
        cancel_requested := true }) (by decide) (by decide)

/-! # Claim C3 -/

/-- C3, counterexample: the latest `image-metadata` run is `pending` with a
null `input_fingerprint_signature` while the current signature is known
(`etag:abc`).  The claim says admission must reuse the run when either
signature is unknown; the code instead creates a new run (the store grows
by one row). -/
theorem c3_reuse_rule_counterexample :
    (sort_desc_by (fun r => r.created_at)
        (fxAdmissionDb.runs.filter (fun r => r.org_id = 0 ∧ r.asset_id = 9 ∧
          r.processor_name = "image-metadata" ∧
          r.processor_version = "1.0.0"))).head? =
      some (mkRun 3 0 9 "image-metadata" "pending" 1 false) ∧
    (mkRun 3 0 9 "image-metadata" "pending" 1
      false).input_fingerprint_signature = none ∧
    get_latest_fingerprint_signature fxAdmissionDb 0 9 = some "etag:abc" ∧
    (enqueue_processor_run fxAdmissionDb 0 9 "image-metadata" false false 50
      "2026-10").1.runs.length = fxAdmissionDb.runs.length + 1 := by decide

/-- Appending a `pending` run does not change the latest completed
fingerprint signature (the join keeps only `completed` runs). -/
theorem sig_append_pending (db : Db) (org_id asset_id : Nat)
    (R : IntelligenceRun) (hR : R.status = "pending") :
    get_latest_fingerprint_signature { db with runs := db.runs ++ [R] }
      org_id asset_id =
      get_latest_fingerprint_signature db org_id asset_id := by
  unfold get_latest_fingerprint_signature
  have hj : _fingerprint_join { db with runs := db.runs ++ [R] } org_id
      asset_id = _fingerprint_join db org_id asset_id := by
    unfold _fingerprint_join
    refine congrArg List.flatten ?_
    refine List.map_congr_left (fun res _ => ?_)
    by_cases ht : res.type = "fingerprint"
    · rw [if_pos ht, if_pos ht]
      show ((db.runs ++ [R]).filter _).map _ = _
      rw [List.filter_append]
      have hRf : List.filter (fun r => decide (r.id = res.run_id ∧
          r.org_id = org_id ∧ r.asset_id = asset_id ∧
          r.status = "completed")) [R] = [] := by
        simp [hR]
      rw [hRf, List.append_nil]
    · rw [if_neg ht, if_neg ht]
  rw [hj]

/-- Structural case split on `enqueue_processor_run`: either the store is
unchanged (error or reuse), or exactly one fresh `pending` run is appended,
carrying the current signature. -/
theorem enqueue_cases (db : Db) (org_id asset_id : Nat) (proc : String)
    (force retry : Bool) (now : Nat) (period : String) :
    (enqueue_processor_run db org_id asset_id proc force retry now
      period).1 = db ∨
    ∃ spec R, PROCESSORS_get proc = some spec ∧
      enforce_quota db.organizations db.org_usage org_id period = .ok ∧
      enqueue_processor_run db org_id asset_id proc force retry now period =
        ({ db with runs := db.runs ++ [R] }, .created R) ∧
      R.status = "pending" ∧ R.created_at = now ∧ R.org_id = org_id ∧
      R.asset_id = asset_id ∧ R.processor_name = spec.name ∧
      R.processor_version = spec.version ∧
      R.input_fingerprint_signature =
        (if spec.name ≠ "asset-fingerprint" then
          get_latest_fingerprint_signature db org_id asset_id else none) := by
  unfold enqueue_processor_run
  cases hp : PROCESSORS_get proc with
  | none => exact Or.inl rfl
  | some spec =>
    dsimp only
    cases hq : enforce_quota db.organizations db.org_usage org_id period with
    | http_error c => exact Or.inl rfl
    | ok =>
      dsimp only
      cases hl : (sort_desc_by (fun r => r.created_at)
          (db.runs.filter (fun r => r.org_id = org_id ∧
            r.asset_id = asset_id ∧ r.processor_name = spec.name ∧
            r.processor_version = spec.version))).head? with
      | none =>
        refine Or.inr ⟨spec, _, rfl, rfl, rfl, rfl, rfl, rfl, rfl, rfl,
          rfl, ?_⟩
        by_cases h : spec.name ≠ "asset-fingerprint" <;> simp [h]
      | some l =>
        dsimp only
        cases hs : _should_create_new_run l.status force retry with
        | true =>
          rw [if_neg (by simp)]
          refine Or.inr ⟨spec, _, rfl, rfl, rfl, rfl, rfl, rfl, rfl, rfl,
            rfl, ?_⟩
          by_cases h : spec.name ≠ "asset-fingerprint" <;> simp [h]
        | false =>
          rw [if_pos (by simp)]
          by_cases h1 : (if spec.name ≠ "asset-fingerprint" then
              get_latest_fingerprint_signature db org_id asset_id
            else none) = none
          · rw [if_pos h1]
            exact Or.inl rfl
          · rw [if_neg h1]
            by_cases h2 : l.input_fingerprint_signature =
                (if spec.name ≠ "asset-fingerprint" then
                  get_latest_fingerprint_signature db org_id asset_id
                else none)
            · rw [if_pos h2]
              exact Or.inl rfl
            · rw [if_neg h2]
              refine Or.inr ⟨spec, _, rfl, rfl, rfl, rfl, rfl, rfl, rfl,
                rfl, rfl, ?_⟩
              by_cases h : spec.name ≠ "asset-fingerprint" <;> simp [h]

/-- After admission appends a fresh `pending` run with the current
signature, any later `enqueue` call with `force = false` and an unchanged
store reuses that run and leaves the store unchanged. -/
theorem enqueue_reuse_after_create (db : Db) (org_id asset_id : Nat)
    (proc : String) (retry : Bool) (now2 : Nat) (period : String)
    (spec : RegistrySpec) (R : IntelligenceRun)
    (hp : PROCESSORS_get proc = some spec)
    (hq : enforce_quota db.organizations db.org_usage org_id period = .ok)
    (hRst : R.status = "pending") (hRorg : R.org_id = org_id)
    (hRasset : R.asset_id = asset_id)
    (hRname : R.processor_name = spec.name)
    (hRver : R.processor_version = spec.version)
    (hRsig : R.input_fingerprint_signature =
      (if spec.name ≠ "asset-fingerprint" then
        get_latest_fingerprint_signature db org_id asset_id else none))
    (hfresh : ∀ b ∈ db.runs, b.created_at < R.created_at) :
    (enqueue_processor_run { db with runs := db.runs ++ [R] } org_id asset_id
      proc false retry now2 period).1 = { db with runs := db.runs ++ [R] } := by
  unfold enqueue_processor_run
  rw [hp]
  dsimp only
  rw [hq]
  dsimp only
  rw [sig_append_pending db org_id asset_id R hRst]
  have hfil : (db.runs ++ [R]).filter (fun r => decide (r.org_id = org_id ∧
      r.asset_id = asset_id ∧ r.processor_name = spec.name ∧
      r.processor_version = spec.version)) =
      db.runs.filter (fun r => decide (r.org_id = org_id ∧
        r.asset_id = asset_id ∧ r.processor_name = spec.name ∧
        r.processor_version = spec.version)) ++ [R] := by
    rw [List.filter_append]
    have : List.filter (fun r => decide (r.org_id = org_id ∧
        r.asset_id = asset_id ∧ r.processor_name = spec.name ∧
        r.processor_version = spec.version)) [R] = [R] := by
      simp [hRorg, hRasset, hRname, hRver]
    rw [this]
  rw [hfil]
  rw [sort_desc_by_append_max (fun b hb =>
    hfresh b (List.mem_of_mem_filter hb))]
  dsimp only
  have hshould : _should_create_new_run R.status false retry = false := by
    rw [hRst]
    cases retry <;> rfl
  rw [hshould]
  rw [if_pos (by decide)]
  by_cases hnone : (if spec.name ≠ "asset-fingerprint" then
      get_latest_fingerprint_signature db org_id asset_id else none) = none
  · rw [if_pos hnone]
  · rw [if_neg hnone, if_pos hRsig]

/-- Iterating `enqueue` from a store it leaves unchanged is the identity. -/
theorem iterate_of_fixed (org_id asset_id : Nat) (proc : String)
    (force retry : Bool) (period : String) (db : Db)
    (h : ∀ now, (enqueue_processor_run db org_id asset_id proc force retry
      now period).1 = db) :
    ∀ n now, enqueue_iterate org_id asset_id proc force retry period n db
      now = db := by
  intro n
  induction n with
  | zero => intro now; rfl
  | succ n ih =>
    intro now
    show enqueue_iterate org_id asset_id proc force retry period n
      (enqueue_processor_run db org_id asset_id proc force retry now
        period).1 (now + 1) = db
    rw [h now]
    exact ih (now + 1)

/-- Reuse rule of admission for a latest run in `pending`/`running`/
`completed` with `force = false`: the run is reused exactly when the
current signature is unknown or equals the stored one. -/
theorem enqueue_reuse_iff (db : Db) (org_id asset_id : Nat) (proc : String)
    (retry : Bool) (now : Nat) (period : String) (spec : RegistrySpec)
    (l : IntelligenceRun) (hp : PROCESSORS_get proc = some spec)
    (hq : enforce_quota db.organizations db.org_usage org_id period = .ok)
    (hl : (sort_desc_by (fun r => r.created_at)
        (db.runs.filter (fun r => r.org_id = org_id ∧ r.asset_id = asset_id ∧
          r.processor_name = spec.name ∧
          r.processor_version = spec.version))).head? = some l)
    (hst : l.status = "pending" ∨ l.status = "running" ∨
      l.status = "completed") :
    (enqueue_processor_run db org_id asset_id proc false retry now
        period).2 = .reused l ↔
      ((if spec.name ≠ "asset-fingerprint" then
          get_latest_fingerprint_signature db org_id asset_id
        else none) = none ∨
       l.input_fingerprint_signature =
        (if spec.name ≠ "asset-fingerprint" then
          get_latest_fingerprint_signature db org_id asset_id else none)) := by
  unfold enqueue_processor_run
  rw [hp]
  dsimp only
  rw [hq]
  dsimp only
  rw [hl]
  dsimp only
  have hshould : _should_create_new_run l.status false retry = false := by
    unfold _should_create_new_run
    rw [if_neg (by simp)]
    rw [if_pos hst]
  rw [hshould]
  rw [if_pos (by decide)]
  by_cases h1 : (if spec.name ≠ "asset-fingerprint" then
      get_latest_fingerprint_signature db org_id asset_id else none) = none
  · rw [if_pos h1]
    simp [h1]
  · rw [if_neg h1]
    by_cases h2 : l.input_fingerprint_signature =
        (if spec.name ≠ "asset-fingerprint" then
          get_latest_fingerprint_signature db org_id asset_id else none)
    · rw [if_pos h2]
      simp [h2]
    · rw [if_neg h2]
      dsimp only
      constructor
      · intro hc
        exact absurd hc (by simp)
      · intro hor
        rcases hor with hA | hB
        · exact absurd hA h1
        · exact absurd hB h2

/-- Idempotent admission: `n` consecutive `enqueue` calls with
`force = false`, `retry = false` and no external change create at most one
run. -/
theorem enqueue_at_most_one (org_id asset_id : Nat) (proc : String)
    (period : String) :
    ∀ (n : Nat) (db : Db) (now : Nat),
      (∀ r ∈ db.runs, r.created_at < now) →
      (enqueue_iterate org_id asset_id proc false false period n db
        now).runs.length ≤ db.runs.length + 1 := by
  intro n
  induction n with
  | zero => intro db now _; simp [enqueue_iterate]
  | succ n ih =>
    intro db now hfresh
    show (enqueue_iterate org_id asset_id proc false false period n
      (enqueue_processor_run db org_id asset_id proc false false now
        period).1 (now + 1)).runs.length ≤ db.runs.length + 1
    rcases enqueue_cases db org_id asset_id proc false false now period with
      hsame | ⟨spec, R, hp, hq, henq, hRst, hRcre, hRorg, hRasset, hRname,
        hRver, hRsig⟩
    · rw [hsame]
      exact ih db (now + 1) (fun r hr => Nat.lt_succ_of_lt (hfresh r hr))
    · have h1 : (enqueue_processor_run db org_id asset_id proc false false
          now period).1 = { db with runs := db.runs ++ [R] } := by
        rw [henq]
      rw [h1]
      have hfix := enqueue_reuse_after_create db org_id asset_id proc false
        now period spec R hp hq hRst hRorg hRasset hRname hRver hRsig
        (fun b hb => hRcre ▸ hfresh b hb)
      have hfix2 : ∀ now2, (enqueue_processor_run
          { db with runs := db.runs ++ [R] } org_id asset_id proc false
          false now2 period).1 = { db with runs := db.runs ++ [R] } := by
        intro now2
        exact enqueue_reuse_after_create db org_id asset_id proc false now2
          period spec R hp hq hRst hRorg hRasset hRname hRver hRsig
          (fun b hb => hRcre ▸ hfresh b hb)
      rw [iterate_of_fixed org_id asset_id proc false false period _ hfix2
        n (now + 1)]
      simp

/-- C3, amended: with a latest run `L` in `pending`/`running`/`completed`
and `force = false`, admission reuses `L` exactly when the current
fingerprint signature is unknown or equals `L`'s stored signature — when
`L`'s signature is null but the current one is known, a new run is created
(not reused, as the original claim stated).  Consequently `n` consecutive
`enqueue` calls with `force = false`, `retry = false` and no signature or
status change still create at most one run. -/
theorem c3_amended_admission :
    (∀ (db : Db) (org_id asset_id : Nat) (proc : String) (retry : Bool)
       (now : Nat) (period : String) (spec : RegistrySpec)
       (l : IntelligenceRun), PROCESSORS_get proc = some spec →
      enforce_quota db.organizations db.org_usage org_id period = .ok →
      (sort_desc_by (fun r => r.created_at)
        (db.runs.filter (fun r => r.org_id = org_id ∧ r.asset_id = asset_id ∧
          r.processor_name = spec.name ∧
          r.processor_version = spec.version))).head? = some l →
      (l.status = "pending" ∨ l.status = "running" ∨
        l.status = "completed") →
      ((enqueue_processor_run db org_id asset_id proc false retry now
          period).2 = .reused l ↔
        ((if spec.name ≠ "asset-fingerprint" then
            get_latest_fingerprint_signature db org_id asset_id
          else none) = none ∨
         l.input_fingerprint_signature =
          (if spec.name ≠ "asset-fingerprint" then
            get_latest_fingerprint_signature db org_id asset_id
          else none)))) ∧
    (∀ (org_id asset_id : Nat) (proc : String) (period : String) (n : Nat)
       (db : Db) (now : Nat), (∀ r ∈ db.runs, r.created_at < now) →
      (enqueue_iterate org_id asset_id proc false false period n db
        now).runs.length ≤ db.runs.length + 1) :=
  ⟨fun db o a p r n per spec l hp hq hl hst =>
      enqueue_reuse_iff db o a p r n per spec l hp hq hl hst,
   fun o a p per n db now hfresh =>
      enqueue_at_most_one o a p per n db now hfresh⟩

/-- C3, witness: with a matching stored signature the pending run is
reused, and three consecutive enqueue calls add at most one run. -/
theorem c3_amended_witness :
    (enqueue_processor_run fxAdmissionDb2 0 9 "image-metadata" false false
        50 "2026-10").2 = .reused ({ mkRun 3 0 9 "image-metadata" "pending"
          1 false with input_fingerprint_signature := some "etag:abc" }) ∧
    (enqueue_iterate 0 9 "image-metadata" false false "2026-10" 3
      fxAdmissionDb 10).runs.length ≤ fxAdmissionDb.runs.length + 1 := by
  constructor
  · exact (c3_amended_admission.1 fxAdmissionDb2 0 9 "image-metadata" false
      50 "2026-10" ⟨"image-metadata", "1.0.0"⟩
      ({ mkRun 3 0 9 "image-metadata" "pending" 1 false with
        input_fingerprint_signature := some "etag:abc" }) (by decide)
      (by decide) (by decide) (by decide)).mpr (Or.inr (by decide))
  · exact c3_amended_admission.2 0 9 "image-metadata" "2026-10" 3
      fxAdmissionDb 10 (by decide)

end AssetIntel
